import Mathlib

/-! Modbus VFD spindle adapters.

A shallow embedding of the three spindle adapters `MODVFD.c` (generic, register map taken
from `vfd_config`), `YL620_VFD.c` (Yalang YL620) and `huanyang.c` (Huanyang v1 and P2A).

Conventions of the embedding

* `float` values (RPM, tolerance, limits) are exact rationals and the `float` operations
  are the exact rational ones.  The C operations are binary32 and round each result; the
  rounding is not part of the embedding, so the theorems below state which expression a
  `float` variable is assigned, not the binary32 number the C code computes.
* Unsigned machine integers are naturals, reduced explicitly where the C type truncates.
* The file-level `static` variables of an adapter form its `State`.
* `modbus_send` belongs to the transport (`modbus.c`): a call is recorded as an event
  carrying the message, the blocking flag and the boolean the transport returned; that
  boolean is an input of the embedded function.  The callbacks the transport invokes are
  the handlers `rx_packet` and `rx_exception`, embedded as separate steps.
* Calls into the host (`system_raise_alarm`, `protocol_enqueue_rt_command`,
  `modbus_reset`, and the calls through the `hal.spindle` pointers) are recorded as events.
* An integer division by zero has no result: the function returns `none`.
-/

namespace VFD

/-! ## Shared declarations -/

/-- The conversion `(uint32_t)(rpm)` of a `float`: the fractional part is discarded.  C defines
the result only for `-1 < rpm < 2^32`; outside that range the value is the saturated one the
Cortex-M conversion instruction delivers. -/
def f2u32 (x : ℚ) : Nat :=
  if x < 0 then 0 else min (Int.toNat ⌊x⌋) 4294967295

/-- The function `lroundf`: nearest integer, halfway cases away from zero. -/
def lroundf (x : ℚ) : ℤ :=
  if 0 ≤ x then ⌊x + 1 / 2⌋ else -⌊-x + 1 / 2⌋

/-- The address `VFD_ADDRESS`, by the `#ifndef` default of each source file. -/
def VFD_ADDRESS : Nat := 0x01

/-- Modelled from the spec: the Modbus function codes of `modbus.h` (not among the sources),
`read-coils`. -/
def ModBus_ReadCoils : Nat := 1

/-- Modelled from the spec: function code `read-holding-registers` (`0x03` in the YL620 notes). -/
def ModBus_ReadHoldingRegisters : Nat := 3

/-- Modelled from the spec: function code `read-input-registers`. -/
def ModBus_ReadInputRegisters : Nat := 4

/-- Modelled from the spec: function code `write-single-coil`. -/
def ModBus_WriteCoil : Nat := 5

/-- Modelled from the spec: function code `write-single-register` (`0x06` in the YL620 notes). -/
def ModBus_WriteRegister : Nat := 6

/-- Modelled from the spec: the enumeration `vfd_response_t` of `vfd_spindle.h` (not among the
sources), the CommandContext tags; `VFD_Idle` is the neutral value 0.  The handlers only use
that the tags are distinct and that the command tags are non-zero. -/
def VFD_Idle : Nat := 0

/-- Modelled from the spec: context tag GetSpeed. -/
def VFD_GetRPM : Nat := 1

/-- Modelled from the spec: context tag SetSpeed. -/
def VFD_SetRPM : Nat := 2

/-- Modelled from the spec: context tag GetMaxSpeed. -/
def VFD_GetMaxRPM : Nat := 3

/-- Modelled from the spec: context tag GetMaxSpeedAlt. -/
def VFD_GetMaxRPM50 : Nat := 4

/-- Modelled from the spec: context tag of a status query (unused by the three adapters). -/
def VFD_GetStatus : Nat := 5

/-- Modelled from the spec: context tag SetRunState. -/
def VFD_SetStatus : Nat := 6

/-- Modelled from the spec: the drive generations of `modbus.vfd_type` (`vfd_spindle.h`),
Huanyang v1. -/
def HUANYANG1 : Nat := 1

/-- Modelled from the spec: drive generation Huanyang P2A (v2). -/
def HUANYANG2 : Nat := 2

/-- A request as handed to `modbus_send`: the fields of `modbus_message_t` the adapters set.
`adu` lists the first six bytes of the buffer; `none` is a byte the encoder never assigned
(the message is an uninitialised local in `huanyang.c`). -/
structure modbus_message_t where
  context : Nat
  crc_check : Bool
  adu : List (Option Nat)
  tx_length : Nat
  rx_length : Nat
  deriving DecidableEq, Repr

/-- A response as handed to `rx_packet`: the context tag and the received bytes. -/
structure rx_message where
  context : Nat
  adu : List Nat
  deriving DecidableEq, Repr

/-- The byte `msg->adu[i]` of a response (a `uint8_t`). -/
def rx_message.byte (msg : rx_message) (i : Nat) : Nat :=
  (msg.adu.getD i 0) % 256

/-- The fields of `spindle_state_t` the adapters read or write (`is_on` is the C field `on`). -/
structure spindle_state_t where
  is_on : Bool
  ccw : Bool
  at_speed : Bool
  deriving DecidableEq, Repr

/-- The fields of `spindle_data_t` the adapters read or write. -/
structure spindle_data_t where
  rpm : ℚ
  rpm_low_limit : ℚ
  rpm_high_limit : ℚ
  deriving DecidableEq, Repr

/-- Modelled from the spec: the fields of `vfd_config` (`vfd_settings_t` of `vfd_spindle.h`,
not among the sources) that `MODVFD.c` uses: register addresses, command values and the
divider/multiplier pair, all unsigned integers. -/
structure vfd_settings_t where
  vfd_rpm_hz : Nat
  runstop_reg : Nat
  set_freq_reg : Nat
  get_freq_reg : Nat
  run_cw_cmd : Nat
  run_ccw_cmd : Nat
  stop_cmd : Nat
  in_multiplier : Nat
  in_divider : Nat
  deriving DecidableEq, Repr

/-- Modelled from the spec: the fields of `modbus` (`modbus_settings_t` of `modbus.h`, not among
the sources) that `YL620_VFD.c` and `huanyang.c` use. -/
structure modbus_settings_t where
  vfd_type : Nat
  vfd_rpm_hz : Nat
  deriving DecidableEq, Repr

/-- What an adapter function does to its surroundings, in program order. -/
inductive Event where
  | modbus_send (msg : modbus_message_t) (block : Bool) (result : Bool)
  | system_raise_alarm
  | enqueue_raise_alarm
  | modbus_reset
  | hal_get_state
  | hal_set_state
  | gc_spindle_off
  deriving DecidableEq, Repr

/-- The 16-bit register address a request names in `adu[2]`, `adu[3]`. -/
def modbus_message_t.reg16 (m : modbus_message_t) : Option Nat :=
  match m.adu with
  | _ :: _ :: some hi :: some lo :: _ => some (256 * hi + lo)
  | _ => none

/-- The 16-bit big-endian value a request carries in `adu[4]`, `adu[5]`. -/
def modbus_message_t.value16 (m : modbus_message_t) : Option Nat :=
  match m.adu with
  | _ :: _ :: _ :: _ :: some hi :: some lo :: _ => some (256 * hi + lo)
  | _ => none

/-- The messages of the `modbus_send` events of a trace that carry context tag `ctx`. -/
def sent_with (ctx : Nat) : List Event → List modbus_message_t
  | [] => []
  | Event.modbus_send m _ _ :: es => if m.context = ctx then m :: sent_with ctx es else sent_with ctx es
  | _ :: es => sent_with ctx es

/-- The at-speed test shared by the three adapters:
`tolerance <= 0.0f || (rpm >= rpm_low_limit && rpm <= rpm_high_limit)`. -/
def at_speed_test (tol rpm lo hi : ℚ) : Bool :=
  decide (tol ≤ 0) || (decide (rpm ≥ lo) && decide (rpm ≤ hi))

/-! ## MODVFD.c -/

namespace MODVFD

/-- The static variables of `MODVFD.c`. -/
structure State where
  rpm_programmed : ℚ
  vfd_state : spindle_state_t
  spindle_data : spindle_data_t
  rpm_max : Nat
  retry_counter : Nat
  deriving DecidableEq, Repr

/-- The initial values of the static variables. -/
def init : State :=
  { rpm_programmed := -1
    vfd_state := { is_on := false, ccw := false, at_speed := false }
    spindle_data := { rpm := 0, rpm_low_limit := 0, rpm_high_limit := 0 }
    rpm_max := 0
    retry_counter := 0 }

/-- The function `spindleSetRPM (float rpm, bool block)`; `tol` is
`settings.spindle.at_speed_tolerance` and `result` what `modbus_send` returns.  The limits
`rpm / (1.0f + tol)` and `rpm * (1.0f + tol)` are binary32 expressions in C, each operation
rounded; here they are the exact quotient and product. -/
def spindleSetRPM (cfg : vfd_settings_t) (tol : ℚ) (s : State) (rpm : ℚ) (block result : Bool) :
    Option (State × List Event) :=
  if cfg.in_divider = 0 then none
  else
    let data : Nat := (f2u32 rpm / cfg.in_divider * cfg.in_multiplier) % 4294967296 % 65536
    let rpm_cmd : modbus_message_t :=
      { context := VFD_SetRPM
        crc_check := false
        adu := [some VFD_ADDRESS, some ModBus_WriteRegister,
                some ((cfg.set_freq_reg >>> 8) % 256), some (cfg.set_freq_reg &&& 0xFF),
                some ((data >>> 8) % 256), some (data &&& 0xFF)]
        tx_length := 8
        rx_length := 8 }
    let s1 : State := { s with vfd_state := { s.vfd_state with at_speed := false } }
    let s2 : State :=
      if tol > 0 then
        { s1 with spindle_data :=
            { s1.spindle_data with
              rpm_low_limit := rpm / (1 + tol)
              rpm_high_limit := rpm * (1 + tol) } }
      else s1
    some ({ s2 with rpm_programmed := rpm }, [Event.modbus_send rpm_cmd block result])

/-- The function `modvfd_spindleUpdateRPM`. -/
def modvfd_spindleUpdateRPM (cfg : vfd_settings_t) (tol : ℚ) (s : State) (rpm : ℚ)
    (result : Bool) : Option (State × List Event) :=
  spindleSetRPM cfg tol s rpm false result

/-- The function `modvfd_spindleSetState (spindle_state_t state, float rpm)`; `sent_mode` and
`sent_rpm` are what `modbus_send` returns for the run/stop and for the speed message.
`runstop` is a `uint8_t`. -/
def modvfd_spindleSetState (cfg : vfd_settings_t) (tol : ℚ) (s : State) (state : spindle_state_t)
    (rpm : ℚ) (sent_mode sent_rpm : Bool) : Option (State × List Event) :=
  let runstop0 : Nat := if state.ccw = true then cfg.run_ccw_cmd % 256 else cfg.run_cw_cmd % 256
  let runstop : Nat := if state.is_on = false ∨ rpm = 0 then cfg.stop_cmd % 256 else runstop0
  let mode_cmd : modbus_message_t :=
    { context := VFD_SetStatus
      crc_check := true
      adu := [some VFD_ADDRESS, some ModBus_WriteRegister,
              some ((cfg.runstop_reg >>> 8) % 256), some (cfg.runstop_reg &&& 0xFF),
              some ((runstop >>> 8) % 256), some (runstop &&& 0xFF)]
      tx_length := 8
      rx_length := 8 }
  let s1 : State := if s.vfd_state.ccw ≠ state.ccw then { s with rpm_programmed := 0 } else s
  let s2 : State := { s1 with vfd_state := { s1.vfd_state with is_on := state.is_on, ccw := state.ccw } }
  if sent_mode = true then
    match spindleSetRPM cfg tol s2 rpm true sent_rpm with
    | none => none
    | some (s3, evs) => some (s3, Event.modbus_send mode_cmd true true :: evs)
  else some (s2, [Event.modbus_send mode_cmd true false])

/-- The function `modvfd_spindleGetState`; `encoder` is the RPM read through
`hal.spindle.get_data` when that pointer is set and is not the adapter's own `spindleGetData`. -/
def modvfd_spindleGetState (cfg : vfd_settings_t) (tol : ℚ) (s : State) (encoder : Option ℚ)
    (result : Bool) : State × List Event × spindle_state_t :=
  let mode_cmd : modbus_message_t :=
    { context := VFD_GetRPM
      crc_check := false
      adu := [some VFD_ADDRESS, some ModBus_ReadHoldingRegisters,
              some ((cfg.get_freq_reg >>> 8) % 256), some (cfg.get_freq_reg &&& 0xFF),
              some 0x00, some 0x01]
      tx_length := 8
      rx_length := 7 }
  let s1 : State :=
    match encoder with
    | some rpm =>
      { s with vfd_state :=
          { s.vfd_state with
            at_speed := at_speed_test tol rpm s.spindle_data.rpm_low_limit
              s.spindle_data.rpm_high_limit } }
    | none => s
  (s1, [Event.modbus_send mode_cmd false result], s1.vfd_state)

/-- The callback `rx_packet (modbus_message_t *msg)`. -/
def rx_packet (cfg : vfd_settings_t) (tol : ℚ) (s : State) (msg : rx_message) : State :=
  if msg.byte 0 &&& 0x80 = 0 then
    if msg.context = VFD_GetRPM then
      let rpm : ℚ := (((msg.byte 3 <<< 8) ||| msg.byte 4 : Nat) : ℚ) * (cfg.vfd_rpm_hz : ℚ)
      { s with
        spindle_data := { s.spindle_data with rpm := rpm }
        vfd_state :=
          { s.vfd_state with
            at_speed := at_speed_test tol rpm s.spindle_data.rpm_low_limit
              s.spindle_data.rpm_high_limit }
        retry_counter := 0 }
    else if msg.context = VFD_GetMaxRPM then
      { s with rpm_max := (msg.byte 4 <<< 8) ||| msg.byte 5, retry_counter := 0 }
    else { s with retry_counter := 0 }
  else s

/-- The callback `rx_exception (uint8_t code, void *context)`; `retries` is the macro
`VFD_RETRIES`, `cold_start` is `sys.cold_start`, and `retry_counter` is a `uint16_t`. -/
def rx_exception (retries : Nat) (cold_start : Bool) (s : State) (_code : Nat) (context : Nat) :
    State × List Event :=
  if cold_start = true then (s, [Event.enqueue_raise_alarm])
  else if context > 0 then
    let counter : Nat := (s.retry_counter + 1) % 65536
    if counter ≥ retries then
      ({ s with retry_counter := 0 }, [Event.system_raise_alarm])
    else if context = VFD_SetStatus ∨ context = VFD_SetRPM then
      ({ s with retry_counter := counter },
        [Event.modbus_reset, Event.hal_get_state, Event.hal_set_state])
    else if context = VFD_GetRPM then
      ({ s with retry_counter := counter }, [Event.modbus_reset, Event.hal_get_state])
    else ({ s with retry_counter := counter }, [])
  else ({ s with retry_counter := 0 }, [Event.system_raise_alarm])

end MODVFD

/-! ## YL620_VFD.c -/

namespace YL620

/-- The static variables of `YL620_VFD.c`. -/
structure State where
  rpm_programmed : ℚ
  vfd_state : spindle_state_t
  spindle_data : spindle_data_t
  rpm_max : Nat
  retry_counter : Nat
  deriving DecidableEq, Repr

/-- The initial values of the static variables. -/
def init : State :=
  { rpm_programmed := -1
    vfd_state := { is_on := false, ccw := false, at_speed := false }
    spindle_data := { rpm := 0, rpm_low_limit := 0, rpm_high_limit := 0 }
    rpm_max := 0
    retry_counter := 0 }

/-- The function `spindleSetRPM (float rpm, bool block)`; the product `(uint32_t)(rpm)*10` is
formed in 32-bit unsigned arithmetic and `data` is a `uint16_t`.  The limits are binary32
expressions in C, each operation rounded; here they are the exact quotient and product. -/
def spindleSetRPM (modbus : modbus_settings_t) (tol : ℚ) (s : State) (rpm : ℚ)
    (block result : Bool) : Option (State × List Event) :=
  if modbus.vfd_rpm_hz = 0 then none
  else
    let data : Nat := (f2u32 rpm * 10 % 4294967296) / modbus.vfd_rpm_hz % 65536
    let rpm_cmd : modbus_message_t :=
      { context := VFD_SetRPM
        crc_check := false
        adu := [some VFD_ADDRESS, some ModBus_WriteRegister, some 0x20, some 0x01,
                some ((data >>> 8) % 256), some (data &&& 0xFF)]
        tx_length := 8
        rx_length := 8 }
    let s1 : State := { s with vfd_state := { s.vfd_state with at_speed := false } }
    let s2 : State :=
      if tol > 0 then
        { s1 with spindle_data :=
            { s1.spindle_data with
              rpm_low_limit := rpm / (1 + tol)
              rpm_high_limit := rpm * (1 + tol) } }
      else s1
    some ({ s2 with rpm_programmed := rpm }, [Event.modbus_send rpm_cmd block result])

/-- The function `spindleUpdateRPM`. -/
def spindleUpdateRPM (modbus : modbus_settings_t) (tol : ℚ) (s : State) (rpm : ℚ)
    (result : Bool) : Option (State × List Event) :=
  spindleSetRPM modbus tol s rpm false result

/-- The function `spindleSetState (spindle_state_t state, float rpm)`. -/
def spindleSetState (modbus : modbus_settings_t) (tol : ℚ) (s : State) (state : spindle_state_t)
    (rpm : ℚ) (sent_mode sent_rpm : Bool) : Option (State × List Event) :=
  let runstop : Nat := if state.is_on = false ∨ rpm = 0 then 0x1 else 0x2
  let direction : Nat := if state.ccw = true then 0x20 else 0x10
  let mode_cmd : modbus_message_t :=
    { context := VFD_SetStatus
      crc_check := false
      adu := [some VFD_ADDRESS, some ModBus_WriteRegister, some 0x20, some 0x00, some 0x00,
              some (direction ||| runstop)]
      tx_length := 8
      rx_length := 8 }
  let s1 : State := if s.vfd_state.ccw ≠ state.ccw then { s with rpm_programmed := 0 } else s
  let s2 : State := { s1 with vfd_state := { s1.vfd_state with is_on := state.is_on, ccw := state.ccw } }
  if sent_mode = true then
    match spindleSetRPM modbus tol s2 rpm true sent_rpm with
    | none => none
    | some (s3, evs) => some (s3, Event.modbus_send mode_cmd true true :: evs)
  else some (s2, [Event.modbus_send mode_cmd true false])

/-- The function `spindleGetState`; `encoder` is the RPM read through `hal.spindle.get_data`
when that pointer is set and is not the adapter's own `spindleGetData`. -/
def spindleGetState (tol : ℚ) (s : State) (encoder : Option ℚ) (result : Bool) :
    State × List Event × spindle_state_t :=
  let mode_cmd : modbus_message_t :=
    { context := VFD_GetRPM
      crc_check := false
      adu := [some VFD_ADDRESS, some ModBus_ReadHoldingRegisters, some 0x20, some 0x0B,
              some 0x00, some 0x01]
      tx_length := 8
      rx_length := 7 }
  let s1 : State :=
    match encoder with
    | some rpm =>
      { s with vfd_state :=
          { s.vfd_state with
            at_speed := at_speed_test tol rpm s.spindle_data.rpm_low_limit
              s.spindle_data.rpm_high_limit } }
    | none => s
  (s1, [Event.modbus_send mode_cmd false result], s1.vfd_state)

/-- The callback `rx_packet (modbus_message_t *msg)`.  The decoded speed is a binary32
expression in C, the conversion, the product and the quotient each rounded; here it is the
exact value. -/
def rx_packet (modbus : modbus_settings_t) (tol : ℚ) (s : State) (msg : rx_message) : State :=
  if msg.byte 0 &&& 0x80 = 0 then
    if msg.context = VFD_GetRPM then
      let rpm : ℚ :=
        (((msg.byte 3 <<< 8) ||| msg.byte 4 : Nat) : ℚ) * (modbus.vfd_rpm_hz : ℚ) / 10
      { s with
        spindle_data := { s.spindle_data with rpm := rpm }
        vfd_state :=
          { s.vfd_state with
            at_speed := at_speed_test tol rpm s.spindle_data.rpm_low_limit
              s.spindle_data.rpm_high_limit }
        retry_counter := 0 }
    else if msg.context = VFD_GetMaxRPM then
      { s with rpm_max := (msg.byte 4 <<< 8) ||| msg.byte 5, retry_counter := 0 }
    else { s with retry_counter := 0 }
  else s

/-- The callback `rx_exception (uint8_t code, void *context)`; `retries` is the macro
`VFD_RETRIES`, `cold_start` is `sys.cold_start`, and `retry_counter` is a `uint16_t`. -/
def rx_exception (retries : Nat) (cold_start : Bool) (s : State) (_code : Nat) (context : Nat) :
    State × List Event :=
  if cold_start = true then (s, [Event.enqueue_raise_alarm])
  else if context > 0 then
    let counter : Nat := (s.retry_counter + 1) % 65536
    if counter ≥ retries then
      ({ s with retry_counter := 0 }, [Event.system_raise_alarm])
    else if context = VFD_SetStatus ∨ context = VFD_SetRPM then
      ({ s with retry_counter := counter },
        [Event.modbus_reset, Event.hal_get_state, Event.hal_set_state])
    else if context = VFD_GetRPM then
      ({ s with retry_counter := counter }, [Event.modbus_reset, Event.hal_get_state])
    else ({ s with retry_counter := counter }, [])
  else ({ s with retry_counter := 0 }, [Event.system_raise_alarm])

end YL620

/-! ## huanyang.c -/

namespace Huanyang

/-- The static variables of `huanyang.c`; `rpm_max50` is a `float`. -/
structure State where
  rpm_programmed : ℚ
  vfd_state : spindle_state_t
  spindle_data : spindle_data_t
  rpm_max : Nat
  rpm_max50 : ℚ
  deriving DecidableEq, Repr

/-- The initial values of the static variables. -/
def init : State :=
  { rpm_programmed := -1
    vfd_state := { is_on := false, ccw := false, at_speed := false }
    spindle_data := { rpm := 0, rpm_low_limit := 0, rpm_high_limit := 0 }
    rpm_max := 0
    rpm_max50 := 3000 }

/-- The function `spindleGetMaxRPM`: one blocking query, by drive generation. -/
def spindleGetMaxRPM (modbus : modbus_settings_t) (result : Bool) : List Event :=
  if modbus.vfd_type = HUANYANG2 then
    [Event.modbus_send
      { context := VFD_GetMaxRPM
        crc_check := false
        adu := [some VFD_ADDRESS, some ModBus_ReadHoldingRegisters, some 0xB0, some 0x05,
                some 0x00, some 0x02]
        tx_length := 8
        rx_length := 8 } true result]
  else
    [Event.modbus_send
      { context := VFD_GetMaxRPM50
        crc_check := false
        adu := [some VFD_ADDRESS, some ModBus_ReadCoils, some 0x03, some 0x90,
                some 0x00, some 0x00]
        tx_length := 8
        rx_length := 8 } true result]

/-- The speed message `rpm_cmd` that `spindleSetRPM` fills in, by drive generation.  For a v2
drive `(uint32_t)(rpm) * 10000UL` is formed in 32-bit unsigned arithmetic and divided by
`rpm_max`; there is no message when `rpm_max` is 0.  For a v1 drive the value is
`lroundf(rpm * 5000.0f / rpm_max50)` stored in a `uint32_t`; there is no message when
`rpm_max50` is 0, the quotient then being infinite or not a number.  The argument of
`lroundf` is a binary32 expression in C, each operation rounded; here it is the exact
quotient. -/
def rpm_cmd (modbus : modbus_settings_t) (s : State) (rpm : ℚ) : Option modbus_message_t :=
  if modbus.vfd_type = HUANYANG2 then
    if s.rpm_max = 0 then none
    else
      let data : Nat := (f2u32 rpm * 10000 % 4294967296) / s.rpm_max % 65536
      some
        { context := VFD_SetRPM
          crc_check := false
          adu := [some VFD_ADDRESS, some ModBus_WriteRegister, some 0x10, none,
                  some ((data >>> 8) % 256), some (data &&& 0xFF)]
          tx_length := 8
          rx_length := 8 }
  else
    if s.rpm_max50 = 0 then none
    else
      let data : Nat := Int.toNat (lroundf (rpm * 5000 / s.rpm_max50) % 4294967296)
      some
        { context := VFD_SetRPM
          crc_check := false
          adu := [some VFD_ADDRESS, some ModBus_WriteCoil, some 0x02,
                  some ((data >>> 8) % 256), some (data &&& 0xFF), none]
          tx_length := 7
          rx_length := 6 }

/-- The function `spindleSetRPM (float rpm, bool block)`.  The limits are binary32 expressions
in C, each operation rounded; here they are the exact quotient and product. -/
def spindleSetRPM (modbus : modbus_settings_t) (tol : ℚ) (s : State) (rpm : ℚ)
    (block result : Bool) : Option (State × List Event) :=
  if rpm ≠ s.rpm_programmed then
    match rpm_cmd modbus s rpm with
    | none => none
    | some cmd =>
      let s1 : State := { s with vfd_state := { s.vfd_state with at_speed := false } }
      let s2 : State :=
        if tol > 0 then
          { s1 with spindle_data :=
              { s1.spindle_data with
                rpm_low_limit := rpm / (1 + tol)
                rpm_high_limit := rpm * (1 + tol) } }
        else s1
      some ({ s2 with rpm_programmed := rpm }, [Event.modbus_send cmd block result])
  else some (s, [])

/-- The function `spindleUpdateRPM`. -/
def spindleUpdateRPM (modbus : modbus_settings_t) (tol : ℚ) (s : State) (rpm : ℚ)
    (result : Bool) : Option (State × List Event) :=
  spindleSetRPM modbus tol s rpm false result

/-- The run/stop message `mode_cmd` that `spindleSetState` fills in, by drive generation. -/
def mode_cmd (modbus : modbus_settings_t) (state : spindle_state_t) (rpm : ℚ) :
    modbus_message_t :=
  if modbus.vfd_type = HUANYANG2 then
    { context := VFD_SetStatus
      crc_check := false
      adu := [some VFD_ADDRESS, some ModBus_WriteRegister, some 0x20, none, none,
              some (if state.is_on = false ∨ rpm = 0 then 6 else if state.ccw = true then 2 else 1)]
      tx_length := 8
      rx_length := 8 }
  else
    { context := VFD_SetStatus
      crc_check := false
      adu := [some VFD_ADDRESS, some ModBus_ReadHoldingRegisters, some 0x01,
              some (if state.is_on = false ∨ rpm = 0 then 0x08
                    else if state.ccw = true then 0x11 else 0x01),
              none, none]
      tx_length := 6
      rx_length := 6 }

/-- The function `spindleSetState (spindle_state_t state, float rpm)`. -/
def spindleSetState (modbus : modbus_settings_t) (tol : ℚ) (s : State) (state : spindle_state_t)
    (rpm : ℚ) (sent_mode sent_rpm : Bool) : Option (State × List Event) :=
  let s1 : State := if s.vfd_state.ccw ≠ state.ccw then { s with rpm_programmed := 0 } else s
  let s2 : State := { s1 with vfd_state := { s1.vfd_state with is_on := state.is_on, ccw := state.ccw } }
  if sent_mode = true then
    match spindleSetRPM modbus tol s2 rpm true sent_rpm with
    | none => none
    | some (s3, evs) => some (s3, Event.modbus_send (mode_cmd modbus state rpm) true true :: evs)
  else some (s2, [Event.modbus_send (mode_cmd modbus state rpm) true false])

/-- The function `spindleGetState`; `encoder` is the RPM read through `hal.spindle.get_data`
when that pointer is set and is not the adapter's own `spindleGetData`. -/
def spindleGetState (modbus : modbus_settings_t) (tol : ℚ) (s : State) (encoder : Option ℚ)
    (result : Bool) : State × List Event × spindle_state_t :=
  let cmd : modbus_message_t :=
    if modbus.vfd_type = HUANYANG2 then
      { context := VFD_GetRPM
        crc_check := false
        adu := [some VFD_ADDRESS, some ModBus_ReadHoldingRegisters, some 0x70, some 0x0C,
                some 0x00, some 0x02]
        tx_length := 8
        rx_length := 8 }
    else
      { context := VFD_GetRPM
        crc_check := false
        adu := [some VFD_ADDRESS, some ModBus_ReadInputRegisters, some 0x03, some 0x01,
                none, none]
        tx_length := 8
        rx_length := 8 }
  let s1 : State :=
    match encoder with
    | some rpm =>
      { s with vfd_state :=
          { s.vfd_state with
            at_speed := at_speed_test tol rpm s.spindle_data.rpm_low_limit
              s.spindle_data.rpm_high_limit } }
    | none => s
  (s1, [Event.modbus_send cmd false result], s1.vfd_state)

/-- The callback `rx_packet (modbus_message_t *msg)`.  The label `case VFD_GetMaxRPM50:` sits
inside an `if` block of the `switch`; the jump to a label does not evaluate the condition of
that `if`, so the case is taken for either drive generation. -/
def rx_packet (modbus : modbus_settings_t) (tol : ℚ) (s : State) (msg : rx_message) : State :=
  if msg.byte 0 &&& 0x80 = 0 then
    if msg.context = VFD_GetRPM then
      let raw : ℚ := (((msg.byte 4 <<< 8) ||| msg.byte 5 : Nat) : ℚ)
      let rpm : ℚ := if modbus.vfd_type = HUANYANG2 then raw else raw * s.rpm_max50 / 5000
      { s with
        spindle_data := { s.spindle_data with rpm := rpm }
        vfd_state :=
          { s.vfd_state with
            at_speed := at_speed_test tol rpm s.spindle_data.rpm_low_limit
              s.spindle_data.rpm_high_limit } }
    else if msg.context = VFD_GetMaxRPM then
      { s with rpm_max := (msg.byte 4 <<< 8) ||| msg.byte 5 }
    else if msg.context = VFD_GetMaxRPM50 then
      { s with rpm_max50 := (((msg.byte 4 <<< 8) ||| msg.byte 5 : Nat) : ℚ) }
    else s
  else s

/-- The callback `rx_exception (uint8_t code, void *context)`. -/
def rx_exception (cold_start : Bool) (s : State) (_code : Nat) (_context : Nat) :
    State × List Event :=
  if cold_start = true then (s, [Event.enqueue_raise_alarm])
  else (s, [Event.system_raise_alarm])

end Huanyang

/-! ## Sequences of faults -/

/-- Deliver the faults of `faults` (code and context of each) to a fault handler `h` one after
the other; the result is the final state and, per fault, the events of its handler call. -/
def deliver {σ : Type} (h : σ → Nat → Nat → σ × List Event) : σ → List (Nat × Nat) →
    σ × List (List Event)
  | s, [] => (s, [])
  | s, (code, context) :: rest =>
    let r := h s code context
    let rs := deliver h r.1 rest
    (rs.1, r.2 :: rs.2)

/-! ## Specification-side descriptions of frames -/

/-- A write-single-register request to register `reg` carrying the 16-bit value `value`,
high byte first, as the claims describe it. -/
def write_register (ctx : Nat) (crc : Bool) (reg value : Nat) : modbus_message_t :=
  { context := ctx
    crc_check := crc
    adu := [some VFD_ADDRESS, some ModBus_WriteRegister, some (reg / 256 % 256), some (reg % 256),
            some (value / 256 % 256), some (value % 256)]
    tx_length := 8
    rx_length := 8 }

/-- A generic-adapter configuration with unit divider and multiplier. -/
def cfg_unit : vfd_settings_t :=
  { vfd_rpm_hz := 1
    runstop_reg := 0x2000
    set_freq_reg := 0x2001
    get_freq_reg := 0x2103
    run_cw_cmd := 18
    run_ccw_cmd := 34
    stop_cmd := 1
    in_multiplier := 1
    in_divider := 1 }

/-- A generic-adapter configuration whose clockwise run command does not fit in one byte. -/
def cfg_wide : vfd_settings_t :=
  { cfg_unit with run_cw_cmd := 0x0100 }

/-- The recovery action the claims attach to a failed command kind: for a failed run/stop or
speed command a transport reset and `hal.spindle.set_state(hal.spindle.get_state(),
sys.spindle_rpm)`, for a failed speed query a transport reset and `hal.spindle.get_state()`,
nothing for any other context. -/
def recovery (context : Nat) : List Event :=
  if context = VFD_SetStatus ∨ context = VFD_SetRPM then
    [Event.modbus_reset, Event.hal_get_state, Event.hal_set_state]
  else if context = VFD_GetRPM then [Event.modbus_reset, Event.hal_get_state]
  else []

/-- Settings selecting a Huanyang v2 (P2A) drive. -/
def modbus_v2 : modbus_settings_t := { vfd_type := HUANYANG2, vfd_rpm_hz := 60 }

/-- Settings selecting a Huanyang v1 drive. -/
def modbus_v1 : modbus_settings_t := { vfd_type := HUANYANG1, vfd_rpm_hz := 60 }

/-- A Huanyang state after a max-speed response carrying 24000 has been decoded. -/
def huanyang_learned : Huanyang.State := { Huanyang.init with rpm_max := 24000 }

/-- A Huanyang state in which 1000 RPM clockwise was programmed and the learned maximum is 0
(the last max-speed response carried 0). -/
def huanyang_unlearned : Huanyang.State :=
  { Huanyang.init with rpm_programmed := 1000, rpm_max := 0 }

/-- Two calls of a fallible operation in a row: the second starts in the state the first left;
the result is the pair of their traces. -/
def twice {σ : Type} (op : σ → Option (σ × List Event)) (s : σ) :
    Option (List Event × List Event) :=
  match op s with
  | none => none
  | some (s1, ev1) =>
    match op s1 with
    | none => none
    | some (_, ev2) => some (ev1, ev2)

/-- The v2 speed message for 1000 RPM at a learned maximum of 24000: the value is
`1000 * 10000 / 24000 = 416 = 0x01A0`. -/
def v2_speed_1000 : modbus_message_t :=
  { context := VFD_SetRPM
    crc_check := false
    adu := [some 0x01, some 0x06, some 0x10, none, some 0x01, some 0xA0]
    tx_length := 8
    rx_length := 8 }

/-- The request `set_state(on, clockwise)`. -/
def run_cw : spindle_state_t := { is_on := true, ccw := false, at_speed := false }

/-- The request `set_state(on, counter-clockwise)`. -/
def run_ccw : spindle_state_t := { is_on := true, ccw := true, at_speed := false }

/-! ## Spindle selection (`yl620_spindle_select`, `huanyang_spindle_select`) -/

/-- The identity of a function pointer held in `hal.spindle`: `NULL`, the static function of
the adapter's own source file that belongs in the slot (`spindleSetState`, `spindleGetState`,
`spindleUpdateRPM`, `spindleGetData`), or any other function. -/
inductive fn_ptr where
  | null
  | adapter
  | foreign (id : Nat)
  deriving DecidableEq, Repr

/-- Modelled from the spec: the operation set `spindle_ptrs_t` of `grbl/hal.h` (not among the
sources): the members the adapters name, and the remaining members together as `others`. -/
structure spindle_ptrs_t where
  set_state : fn_ptr
  get_state : fn_ptr
  update_rpm : fn_ptr
  get_data : fn_ptr
  reset_data : fn_ptr
  others : Nat
  deriving DecidableEq, Repr

/-- Modelled from the spec: the capability flags `driver_cap_t` of `grbl/hal.h` (not among the
sources): the variable-speed, at-speed and direction flags, and the remaining flags together
as `others`. -/
structure driver_cap_t where
  variable_spindle : Bool
  spindle_at_speed : Bool
  spindle_dir : Bool
  others : Nat
  deriving DecidableEq, Repr

/-- The members of `hal` that spindle selection reads or writes. -/
structure hal_t where
  driver_cap : driver_cap_t
  spindle : spindle_ptrs_t
  deriving DecidableEq, Repr

/-- The function-level `static` variables of a `spindle_select` function. -/
structure select_statics where
  init_ok : Bool
  vfd_active : Bool
  driver_cap : driver_cap_t
  spindle_org : spindle_ptrs_t
  deriving DecidableEq, Repr

/-- The initial (zero) values of the statics of a `spindle_select` function. -/
def select_statics.init : select_statics :=
  { init_ok := false
    vfd_active := false
    driver_cap :=
      { variable_spindle := false, spindle_at_speed := false, spindle_dir := false, others := 0 }
    spindle_org :=
      { set_state := fn_ptr.null, get_state := fn_ptr.null, update_rpm := fn_ptr.null,
        get_data := fn_ptr.null, reset_data := fn_ptr.null, others := 0 } }

/-- What a `spindle_select` call leaves behind: its statics, `hal`, the calls it made and the
value it returned. -/
structure select_result where
  statics : select_statics
  hal : hal_t
  events : List Event
  ret : Bool

/-- The body shared, word for word, by `yl620_spindle_select` and `huanyang_spindle_select`.
`on_spindle_select` is the chained handler saved by the init function (`none` for `NULL`),
acting on `hal` and returning whether it claimed the id; `isup` is `modbus_isup()`, `ppr` is
`settings.spindle.ppr`, and `get_max` lists the calls of the file's `spindleGetMaxRPM`. -/
def spindle_select (get_max : List Event) (on_spindle_select : Option (Nat → hal_t → hal_t × Bool))
    (isup : Bool) (ppr : Nat) (st : select_statics) (hal : hal_t) (spindle_id : Nat) :
    select_result :=
  let leave : Prop :=
    st.vfd_active = true ∧ spindle_id ≠ 1 ∧ st.spindle_org.set_state ≠ fn_ptr.null
  let st1 : select_statics := if leave then { st with vfd_active := false } else st
  let ev1 : List Event := if leave then [Event.gc_spindle_off] else []
  let hal1 : hal_t :=
    if leave then { driver_cap := st.driver_cap, spindle := st.spindle_org } else hal
  let chained : hal_t × Bool :=
    match on_spindle_select with
    | none => (hal1, false)
    | some f => f spindle_id hal1
  if chained.2 = true then { statics := st1, hal := chained.1, events := ev1, ret := true }
  else if isup = false then { statics := st1, hal := chained.1, events := ev1, ret := false }
  else if spindle_id = 1 then
    let st2 : select_statics := { st1 with vfd_active := true }
    let hal2 : hal_t := chained.1
    let st3 : select_statics :=
      if hal2.spindle.set_state ≠ fn_ptr.adapter ∧ st2.spindle_org.set_state = fn_ptr.null then
        { st2 with driver_cap := hal2.driver_cap, spindle_org := hal2.spindle }
      else st2
    let ev3 : List Event :=
      if hal2.spindle.set_state ≠ fn_ptr.adapter ∧ st3.spindle_org.set_state ≠ fn_ptr.null then
        [Event.gc_spindle_off]
      else []
    let hal3 : hal_t :=
      if hal2.spindle.set_state ≠ fn_ptr.adapter then
        { driver_cap :=
            { hal2.driver_cap with
              variable_spindle := true, spindle_at_speed := true, spindle_dir := true }
          spindle :=
            { hal2.spindle with
              set_state := fn_ptr.adapter, get_state := fn_ptr.adapter,
              update_rpm := fn_ptr.adapter, reset_data := fn_ptr.null } }
      else hal2
    let hal4 : hal_t :=
      if ppr = 0 then { hal3 with spindle := { hal3.spindle with get_data := fn_ptr.adapter } }
      else hal3
    if st3.init_ok = false then
      { statics := { st3 with init_ok := true }, hal := hal4, events := ev1 ++ ev3 ++ get_max,
        ret := true }
    else { statics := st3, hal := hal4, events := ev1 ++ ev3, ret := true }
  else
    { statics := { st1 with vfd_active := false }, hal := chained.1, events := ev1, ret := true }

namespace YL620

/-- The function `spindleGetMaxRPM` of `YL620_VFD.c`, whose body is empty. -/
def spindleGetMaxRPM : List Event := []

/-- The function `yl620_spindle_select (uint_fast8_t spindle_id)`. -/
def yl620_spindle_select (on_spindle_select : Option (Nat → hal_t → hal_t × Bool)) (isup : Bool)
    (ppr : Nat) (st : select_statics) (hal : hal_t) (spindle_id : Nat) : select_result :=
  spindle_select spindleGetMaxRPM on_spindle_select isup ppr st hal spindle_id

end YL620

namespace Huanyang

/-- The function `huanyang_spindle_select (uint_fast8_t spindle_id)`; `result` is what
`modbus_send` returns for the max-speed query of `spindleGetMaxRPM`. -/
def huanyang_spindle_select (modbus : modbus_settings_t) (result : Bool)
    (on_spindle_select : Option (Nat → hal_t → hal_t × Bool)) (isup : Bool)
    (ppr : Nat) (st : select_statics) (hal : hal_t) (spindle_id : Nat) : select_result :=
  spindle_select (spindleGetMaxRPM modbus result) on_spindle_select isup ppr st hal spindle_id

end Huanyang

/-- A host whose spindle operation set belongs to another driver (say a PWM spindle). -/
def hal_pwm : hal_t :=
  { driver_cap :=
      { variable_spindle := true, spindle_at_speed := false, spindle_dir := false, others := 5 }
    spindle :=
      { set_state := fn_ptr.foreign 1, get_state := fn_ptr.foreign 2,
        update_rpm := fn_ptr.foreign 3, get_data := fn_ptr.null,
        reset_data := fn_ptr.foreign 4, others := 9 } }

/-- A generic-adapter configuration whose stop command does not fit in one byte. -/
def cfg_wide_stop : vfd_settings_t :=
  { cfg_unit with stop_cmd := 0x0101 }

/-- The request `set_state(off)`. -/
def run_off : spindle_state_t := { is_on := false, ccw := false, at_speed := false }

/-- The run/stop policy of the claims for the generic adapter: the configured command that
`(on, ccw, rpm)` selects. -/
def modvfd_policy (cfg : vfd_settings_t) (state : spindle_state_t) (rpm : ℚ) : Nat :=
  if state.is_on = false ∨ rpm = 0 then cfg.stop_cmd
  else if state.ccw = true then cfg.run_ccw_cmd else cfg.run_cw_cmd

/-- The YL620 command-register value of the claims: run/stop in bits 1:0 (`b01` shutdown,
`b10` start), direction in bits 5:4 (`b01` forward, `b10` reverse), every other bit 0. -/
def yl620_command (state : spindle_state_t) (rpm : ℚ) : Nat :=
  16 * (if state.ccw = true then 2 else 1) + (if state.is_on = false ∨ rpm = 0 then 1 else 2)

/-- The at-speed invariant of the claims: `at_speed` is set only if the tolerance is not
positive or the stored RPM lies within the stored limits. -/
def at_speed_inv (tol : ℚ) (st : spindle_state_t) (d : spindle_data_t) : Prop :=
  st.at_speed = true → (tol ≤ 0 ∨ (d.rpm_low_limit ≤ d.rpm ∧ d.rpm ≤ d.rpm_high_limit))

/-- The bytes of a request that go on the wire ahead of the two CRC bytes:
`adu[0] .. adu[tx_length - 3]`. -/
def transmitted (m : modbus_message_t) : List (Option Nat) :=
  m.adu.take (m.tx_length - 2)

/-- Whether every byte of a request that goes on the wire was assigned by the encoder. -/
def determined (m : modbus_message_t) : Bool :=
  (transmitted m).all Option.isSome

/-- The speed query `spindleGetState` of `huanyang.c` sends to a v1 drive. -/
def v1_speed_query : modbus_message_t :=
  { context := VFD_GetRPM
    crc_check := false
    adu := [some 0x01, some 0x04, some 0x03, some 0x01, none, none]
    tx_length := 8
    rx_length := 8 }

end VFD

/-! # Theorems -/

namespace VFD

/-! ## Bytes and words -/

theorem and_0xFF (x : Nat) : x &&& 0xFF = x % 256 :=
  Nat.and_pow_two_sub_one_eq_mod x 8

theorem shr_8 (x : Nat) : x >>> 8 = x / 256 :=
  Nat.shiftRight_eq_div_pow x 8

theorem shl_8_or (a b : Nat) (hb : b < 256) : (a <<< 8) ||| b = 256 * a + b := by
  have h := Nat.mul_add_lt_is_or (show b < 2 ^ 8 from hb) a
  rw [Nat.shiftLeft_eq, Nat.mul_comm a (2 ^ 8), ← h]

theorem write_register_value16 (ctx : Nat) (crc : Bool) (reg v : Nat) (hv : v < 65536) :
    (write_register ctx crc reg v).value16 = some v := by
  simp only [write_register, modbus_message_t.value16]
  congr 1
  omega

theorem write_register_reg16 (ctx : Nat) (crc : Bool) (reg v : Nat) :
    (write_register ctx crc reg v).reg16 = some (reg % 65536) := by
  simp only [write_register, modbus_message_t.reg16]
  congr 1
  omega

theorem f2u32_eq_floor (x : ℚ) (h0 : 0 ≤ x) (h32 : x < 4294967296) : (f2u32 x : ℤ) = ⌊x⌋ := by
  have hf0 : 0 ≤ ⌊x⌋ := Int.floor_nonneg.mpr h0
  have hf1 : ⌊x⌋ < 4294967296 := Int.floor_lt.mpr (by exact_mod_cast h32)
  unfold f2u32
  rw [if_neg (not_lt.mpr h0)]
  omega

/-! ## C1: generic adapter, frames of a clockwise start -/

theorem modvfd_mode_cmd_eq (reg cmd : Nat) :
    ({ context := VFD_SetStatus
       crc_check := true
       adu := [some VFD_ADDRESS, some ModBus_WriteRegister,
               some ((reg >>> 8) % 256), some (reg &&& 0xFF),
               some (((cmd % 256) >>> 8) % 256), some ((cmd % 256) &&& 0xFF)]
       tx_length := 8
       rx_length := 8 } : modbus_message_t) = write_register VFD_SetStatus true reg (cmd % 256) := by
  simp only [write_register, and_0xFF, shr_8]

theorem modvfd_rpm_cmd_eq (reg data : Nat) :
    ({ context := VFD_SetRPM
       crc_check := false
       adu := [some VFD_ADDRESS, some ModBus_WriteRegister,
               some ((reg >>> 8) % 256), some (reg &&& 0xFF),
               some ((data >>> 8) % 256), some (data &&& 0xFF)]
       tx_length := 8
       rx_length := 8 } : modbus_message_t) = write_register VFD_SetRPM false reg data := by
  simp only [write_register, and_0xFF, shr_8]

/-- Generic adapter, what a clockwise start sends: for every configuration with a non-zero
`in_divider` and every `rpm` other than 0, `set_state(on, clockwise, rpm)` with both blocking
sends successful emits exactly two frames in this order: a write-single-register frame to
`runstop_reg` carrying `run_cw_cmd` as held in the `uint8_t runstop` (its low byte), then a
write-single-register frame to `set_freq_reg` whose 16-bit value is
`((uint32_t)rpm / in_divider * in_multiplier) mod 2^16`; the converted `(uint32_t)rpm` is
`floor(rpm)` for `0 <= rpm < 2^32`. -/
theorem modvfd_set_state_cw_frames (cfg : vfd_settings_t) (tol : ℚ) (s : MODVFD.State)
    (state : spindle_state_t) (rpm : ℚ)
    (hdiv : cfg.in_divider ≠ 0) (hrpm : rpm ≠ 0)
    (hon : state.is_on = true) (hcw : state.ccw = false) :
    (∃ s1, MODVFD.modvfd_spindleSetState cfg tol s state rpm true true = some (s1,
        [Event.modbus_send
            (write_register VFD_SetStatus true cfg.runstop_reg (cfg.run_cw_cmd % 256)) true true,
         Event.modbus_send
            (write_register VFD_SetRPM false cfg.set_freq_reg
              (f2u32 rpm / cfg.in_divider * cfg.in_multiplier % 65536)) true true]))
    ∧ (write_register VFD_SetStatus true cfg.runstop_reg (cfg.run_cw_cmd % 256)).reg16
        = some (cfg.runstop_reg % 65536)
    ∧ (write_register VFD_SetStatus true cfg.runstop_reg (cfg.run_cw_cmd % 256)).value16
        = some (cfg.run_cw_cmd % 256)
    ∧ (write_register VFD_SetRPM false cfg.set_freq_reg
          (f2u32 rpm / cfg.in_divider * cfg.in_multiplier % 65536)).reg16
        = some (cfg.set_freq_reg % 65536)
    ∧ (write_register VFD_SetRPM false cfg.set_freq_reg
          (f2u32 rpm / cfg.in_divider * cfg.in_multiplier % 65536)).value16
        = some (f2u32 rpm / cfg.in_divider * cfg.in_multiplier % 65536)
    ∧ (0 ≤ rpm → rpm < 4294967296 → (f2u32 rpm : ℤ) = ⌊rpm⌋) := by
  refine ⟨?_, write_register_reg16 _ _ _ _, write_register_value16 _ _ _ _ ?_,
    write_register_reg16 _ _ _ _, write_register_value16 _ _ _ _ ?_, f2u32_eq_floor rpm⟩
  · have hmod : f2u32 rpm / cfg.in_divider * cfg.in_multiplier % 4294967296 % 65536
        = f2u32 rpm / cfg.in_divider * cfg.in_multiplier % 65536 :=
      Nat.mod_mod_of_dvd _ (by decide)
    simp only [ MODVFD.modvfd_spindleSetState, MODVFD.spindleSetRPM, hon, hcw, hrpm, hdiv, hmod,
      modvfd_mode_cmd_eq, modvfd_rpm_cmd_eq, if_false, if_true, or_self, Bool.true_eq_false,
      Bool.false_eq_true]
    exact ⟨_, rfl⟩
  · omega
  · omega

/-- An instance of the clockwise start: with unit divider and multiplier and `rpm = 1000` the
speed frame carries the bytes `0x03`, `0xE8`. -/
theorem modvfd_set_state_cw_frames_witness :
    (write_register VFD_SetRPM false cfg_unit.set_freq_reg
        (f2u32 1000 / cfg_unit.in_divider * cfg_unit.in_multiplier % 65536)).adu
      = [some 0x01, some 0x06, some 0x20, some 0x01, some 0x03, some 0xE8]
    ∧ ∃ s1, MODVFD.modvfd_spindleSetState cfg_unit 0 MODVFD.init run_cw 1000 true true = some (s1,
        [Event.modbus_send
            (write_register VFD_SetStatus true cfg_unit.runstop_reg (cfg_unit.run_cw_cmd % 256))
            true true,
         Event.modbus_send
            (write_register VFD_SetRPM false cfg_unit.set_freq_reg
              (f2u32 1000 / cfg_unit.in_divider * cfg_unit.in_multiplier % 65536)) true true]) :=
  ⟨by decide,
   (modvfd_set_state_cw_frames cfg_unit 0 MODVFD.init run_cw 1000
      (by decide) (by decide) rfl rfl).1⟩

/-- C1, the code at the failing input: with `run_cw_cmd = 0x0100` the run frame of
`set_state(on, clockwise, 1000)` is a write to `runstop_reg` carrying the 16-bit value 0, not
`run_cw_cmd`: the command passes through the `uint8_t runstop`, whose high byte `runstop >> 8`
is always 0.  The speed frame that follows carries 1000. -/
theorem modvfd_run_cmd_truncated :
    cfg_wide.in_divider ≠ 0 ∧ cfg_wide.run_cw_cmd = 256 ∧
    ∃ s1 f1 f2, MODVFD.modvfd_spindleSetState cfg_wide 0 MODVFD.init run_cw 1000 true true
        = some (s1, [Event.modbus_send f1 true true, Event.modbus_send f2 true true])
      ∧ f1.reg16 = some cfg_wide.runstop_reg
      ∧ f1.value16 = some 0
      ∧ f1.value16 ≠ some cfg_wide.run_cw_cmd
      ∧ f2.value16 = some 1000 := by
  refine ⟨by decide, rfl, _, _, _, rfl, ?_, ?_, ?_, ?_⟩ <;> decide

/-! ## C2: at-speed after a decoded speed response -/

theorem at_speed_test_iff (tol rpm lo hi : ℚ) :
    at_speed_test tol rpm lo hi = true ↔ (tol ≤ 0 ∨ (lo ≤ rpm ∧ rpm ≤ hi)) := by
  simp [at_speed_test]

theorem byte_lt (msg : rx_message) (i : Nat) : msg.byte i < 256 :=
  Nat.mod_lt _ (by decide)

/-- C2: in each adapter, decoding a non-exception speed-query response stores the decoded RPM,
leaves the limits as they were, and sets `at_speed` to exactly
`t <= 0 OR (rpm_low_limit <= rpm AND rpm <= rpm_high_limit)` for that RPM.  The decoded RPM is
`raw * vfd_rpm_hz` (generic), `raw * vfd_rpm_hz / 10` (YL620), `raw` (Huanyang v2) or
`raw * rpm_max50 / 5000` (Huanyang v1), `raw` being the 16-bit payload value. -/
theorem rx_packet_at_speed (cfg : vfd_settings_t) (modbus : modbus_settings_t) (tol : ℚ)
    (sm : MODVFD.State) (sy : YL620.State) (sh : Huanyang.State) (msg : rx_message)
    (hok : msg.byte 0 &&& 0x80 = 0) (hctx : msg.context = VFD_GetRPM) :
    ((MODVFD.rx_packet cfg tol sm msg).spindle_data.rpm
        = ((256 * msg.byte 3 + msg.byte 4 : Nat) : ℚ) * (cfg.vfd_rpm_hz : ℚ)
      ∧ (MODVFD.rx_packet cfg tol sm msg).spindle_data.rpm_low_limit
        = sm.spindle_data.rpm_low_limit
      ∧ (MODVFD.rx_packet cfg tol sm msg).spindle_data.rpm_high_limit
        = sm.spindle_data.rpm_high_limit
      ∧ ((MODVFD.rx_packet cfg tol sm msg).vfd_state.at_speed = true ↔
          (tol ≤ 0 ∨
            (sm.spindle_data.rpm_low_limit ≤ (MODVFD.rx_packet cfg tol sm msg).spindle_data.rpm
              ∧ (MODVFD.rx_packet cfg tol sm msg).spindle_data.rpm
                ≤ sm.spindle_data.rpm_high_limit))))
    ∧ ((YL620.rx_packet modbus tol sy msg).spindle_data.rpm
        = ((256 * msg.byte 3 + msg.byte 4 : Nat) : ℚ) * (modbus.vfd_rpm_hz : ℚ) / 10
      ∧ (YL620.rx_packet modbus tol sy msg).spindle_data.rpm_low_limit
        = sy.spindle_data.rpm_low_limit
      ∧ (YL620.rx_packet modbus tol sy msg).spindle_data.rpm_high_limit
        = sy.spindle_data.rpm_high_limit
      ∧ ((YL620.rx_packet modbus tol sy msg).vfd_state.at_speed = true ↔
          (tol ≤ 0 ∨
            (sy.spindle_data.rpm_low_limit ≤ (YL620.rx_packet modbus tol sy msg).spindle_data.rpm
              ∧ (YL620.rx_packet modbus tol sy msg).spindle_data.rpm
                ≤ sy.spindle_data.rpm_high_limit))))
    ∧ ((Huanyang.rx_packet modbus tol sh msg).spindle_data.rpm
        = (if modbus.vfd_type = HUANYANG2 then ((256 * msg.byte 4 + msg.byte 5 : Nat) : ℚ)
           else ((256 * msg.byte 4 + msg.byte 5 : Nat) : ℚ) * sh.rpm_max50 / 5000)
      ∧ (Huanyang.rx_packet modbus tol sh msg).spindle_data.rpm_low_limit
        = sh.spindle_data.rpm_low_limit
      ∧ (Huanyang.rx_packet modbus tol sh msg).spindle_data.rpm_high_limit
        = sh.spindle_data.rpm_high_limit
      ∧ ((Huanyang.rx_packet modbus tol sh msg).vfd_state.at_speed = true ↔
          (tol ≤ 0 ∨
            (sh.spindle_data.rpm_low_limit
                ≤ (Huanyang.rx_packet modbus tol sh msg).spindle_data.rpm
              ∧ (Huanyang.rx_packet modbus tol sh msg).spindle_data.rpm
                ≤ sh.spindle_data.rpm_high_limit)))) := by
  have h34 := shl_8_or (msg.byte 3) (msg.byte 4) (byte_lt msg 4)
  have h45 := shl_8_or (msg.byte 4) (msg.byte 5) (byte_lt msg 5)
  refine ⟨?_, ?_, ?_⟩
  · simp [ MODVFD.rx_packet, hok, hctx, h34, at_speed_test_iff]
  · simp [ YL620.rx_packet, hok, hctx, h34, at_speed_test_iff]
  · simp [ Huanyang.rx_packet, hok, hctx, h45, at_speed_test_iff]

/-- A speed response carrying raw value 1000 in `adu[3]`, `adu[4]`. -/
theorem rx_packet_at_speed_witness :
    (({ context := VFD_GetRPM, adu := [1, 3, 2, 3, 232, 0] } : rx_message).byte 0 &&& 0x80 = 0)
    ∧ ((MODVFD.rx_packet cfg_unit 0 MODVFD.init
          { context := VFD_GetRPM, adu := [1, 3, 2, 3, 232, 0] }).vfd_state.at_speed = true ↔
        ((0 : ℚ) ≤ 0 ∨
          (MODVFD.init.spindle_data.rpm_low_limit
              ≤ (MODVFD.rx_packet cfg_unit 0 MODVFD.init
                  { context := VFD_GetRPM, adu := [1, 3, 2, 3, 232, 0] }).spindle_data.rpm
            ∧ (MODVFD.rx_packet cfg_unit 0 MODVFD.init
                  { context := VFD_GetRPM, adu := [1, 3, 2, 3, 232, 0] }).spindle_data.rpm
              ≤ MODVFD.init.spindle_data.rpm_high_limit))) :=
  ⟨by decide,
   (rx_packet_at_speed cfg_unit { vfd_type := HUANYANG2, vfd_rpm_hz := 60 } 0 MODVFD.init
      YL620.init Huanyang.init { context := VFD_GetRPM, adu := [1, 3, 2, 3, 232, 0] }
      (by decide) rfl).1.2.2.2⟩

/-! ## C4: the retry bound -/

theorem deliver_below {σ : Type} (h : σ → Nat → Nat → σ × List Event) (cnt : σ → Nat) (N : Nat)
    (hstep : ∀ s code ctx, ctx ≠ 0 → cnt s + 1 < N →
      (h s code ctx).2 = recovery ctx ∧ cnt (h s code ctx).1 = cnt s + 1) :
    ∀ (fs : List (Nat × Nat)) (s : σ), (∀ f ∈ fs, f.2 ≠ 0) → cnt s + fs.length < N →
      cnt (deliver h s fs).1 = cnt s + fs.length
        ∧ (deliver h s fs).2 = fs.map (fun f => recovery f.2) := by
  intro fs
  induction fs with
  | nil => intro s _ _; exact ⟨rfl, rfl⟩
  | cons f rest ih =>
    intro s hctx hlen
    obtain ⟨code, ctx⟩ := f
    have hc : ctx ≠ 0 := hctx (code, ctx) (List.mem_cons_self _ _)
    simp only [List.length_cons] at hlen
    obtain ⟨hev, hcnt⟩ := hstep s code ctx hc (by omega)
    obtain ⟨ih1, ih2⟩ := ih (h s code ctx).1
      (fun g hg => hctx g (List.mem_cons_of_mem _ hg)) (by omega)
    refine ⟨?_, ?_⟩
    · simp only [deliver, ih1, hcnt, List.length_cons]; omega
    · simp only [deliver, ih2, hev, List.map_cons]

theorem deliver_reaching {σ : Type} (h : σ → Nat → Nat → σ × List Event) (cnt : σ → Nat) (N : Nat)
    (hstep : ∀ s code ctx, ctx ≠ 0 → cnt s + 1 < N →
      (h s code ctx).2 = recovery ctx ∧ cnt (h s code ctx).1 = cnt s + 1)
    (hlast : ∀ s code ctx, ctx ≠ 0 → cnt s + 1 = N →
      (h s code ctx).2 = [Event.system_raise_alarm] ∧ cnt (h s code ctx).1 = 0) :
    ∀ (fs : List (Nat × Nat)) (s : σ), (∀ f ∈ fs, f.2 ≠ 0) → fs ≠ [] → cnt s + fs.length = N →
      cnt (deliver h s fs).1 = 0
        ∧ (deliver h s fs).2
          = (fs.take (fs.length - 1)).map (fun f => recovery f.2) ++ [[Event.system_raise_alarm]] := by
  intro fs
  induction fs with
  | nil => intro s _ hne _; exact absurd rfl hne
  | cons f rest ih =>
    intro s hctx _ hlen
    obtain ⟨code, ctx⟩ := f
    have hc : ctx ≠ 0 := hctx (code, ctx) (List.mem_cons_self _ _)
    simp only [List.length_cons] at hlen
    cases rest with
    | nil =>
      obtain ⟨hev, hcnt⟩ := hlast s code ctx hc (by simpa using hlen)
      simp [deliver, hev, hcnt]
    | cons g rest2 =>
      simp only [List.length_cons] at hlen
      obtain ⟨hev, hcnt⟩ := hstep s code ctx hc (by omega)
      obtain ⟨ih1, ih2⟩ := ih (h s code ctx).1
        (fun k hk => hctx k (List.mem_cons_of_mem _ hk)) (by simp)
        (by simp only [List.length_cons]; omega)
      refine ⟨?_, ?_⟩
      · simp only [deliver] at ih1 ⊢
        exact ih1
      · simp only [deliver] at ih2 ⊢
        simp only [ih2, hev, List.length_cons, Nat.add_sub_cancel, List.take_succ_cons,
          List.map_cons, List.cons_append]

theorem modvfd_fault_step (N : Nat) (hfit : N < 65536) (s : MODVFD.State) (code ctx : Nat)
    (hc : ctx ≠ 0) (hlt : s.retry_counter + 1 < N) :
    (MODVFD.rx_exception N false s code ctx).2 = recovery ctx
      ∧ (MODVFD.rx_exception N false s code ctx).1.retry_counter = s.retry_counter + 1 := by
  have hpos : ctx > 0 := Nat.pos_of_ne_zero hc
  have hmod : (s.retry_counter + 1) % 65536 = s.retry_counter + 1 := Nat.mod_eq_of_lt (by omega)
  have hnot : ¬ (s.retry_counter + 1 ≥ N) := by omega
  unfold MODVFD.rx_exception recovery
  simp only [hpos, hmod, hnot, if_true, if_false, Bool.false_eq_true]
  split_ifs <;> exact ⟨rfl, rfl⟩

theorem modvfd_fault_last (N : Nat) (hfit : N < 65536) (s : MODVFD.State) (code ctx : Nat)
    (hc : ctx ≠ 0) (hlt : s.retry_counter + 1 = N) :
    (MODVFD.rx_exception N false s code ctx).2 = [Event.system_raise_alarm]
      ∧ (MODVFD.rx_exception N false s code ctx).1.retry_counter = 0 := by
  have hpos : ctx > 0 := Nat.pos_of_ne_zero hc
  have hmod : (s.retry_counter + 1) % 65536 = s.retry_counter + 1 := Nat.mod_eq_of_lt (by omega)
  have hge : s.retry_counter + 1 ≥ N := by omega
  unfold MODVFD.rx_exception
  simp [hpos, hmod, hge]

theorem yl620_fault_step (N : Nat) (hfit : N < 65536) (s : YL620.State) (code ctx : Nat)
    (hc : ctx ≠ 0) (hlt : s.retry_counter + 1 < N) :
    (YL620.rx_exception N false s code ctx).2 = recovery ctx
      ∧ (YL620.rx_exception N false s code ctx).1.retry_counter = s.retry_counter + 1 := by
  have hpos : ctx > 0 := Nat.pos_of_ne_zero hc
  have hmod : (s.retry_counter + 1) % 65536 = s.retry_counter + 1 := Nat.mod_eq_of_lt (by omega)
  have hnot : ¬ (s.retry_counter + 1 ≥ N) := by omega
  unfold YL620.rx_exception recovery
  simp only [hpos, hmod, hnot, if_true, if_false, Bool.false_eq_true]
  split_ifs <;> exact ⟨rfl, rfl⟩

theorem yl620_fault_last (N : Nat) (hfit : N < 65536) (s : YL620.State) (code ctx : Nat)
    (hc : ctx ≠ 0) (hlt : s.retry_counter + 1 = N) :
    (YL620.rx_exception N false s code ctx).2 = [Event.system_raise_alarm]
      ∧ (YL620.rx_exception N false s code ctx).1.retry_counter = 0 := by
  have hpos : ctx > 0 := Nat.pos_of_ne_zero hc
  have hmod : (s.retry_counter + 1) % 65536 = s.retry_counter + 1 := Nat.mod_eq_of_lt (by omega)
  have hge : s.retry_counter + 1 ≥ N := by omega
  unfold YL620.rx_exception
  simp [hpos, hmod, hge]

/-- C4: generic and YL620 adapters, outside cold start, with `VFD_RETRIES = N`, `1 <= N`, `N`
a value of the 16-bit retry counter.  Starting from counter 0, `N` consecutive faults with
non-zero context give, for each of the first `N - 1` faults, exactly the recovery action of its
context and no alarm, with the counter equal to the number of faults so far, and for the
`N`-th fault exactly one alarm; the counter is 0 afterwards. -/
theorem retry_bound (N : Nat) (hN : 1 ≤ N) (hfit : N < 65536)
    (sm : MODVFD.State) (sy : YL620.State)
    (hm0 : sm.retry_counter = 0) (hy0 : sy.retry_counter = 0)
    (faults : List (Nat × Nat)) (hlen : faults.length = N) (hctx : ∀ f ∈ faults, f.2 ≠ 0) :
    ((deliver (MODVFD.rx_exception N false) sm faults).1.retry_counter = 0
      ∧ (deliver (MODVFD.rx_exception N false) sm faults).2
          = (faults.take (N - 1)).map (fun f => recovery f.2) ++ [[Event.system_raise_alarm]]
      ∧ ∀ k, k < N →
          (deliver (MODVFD.rx_exception N false) sm (faults.take k)).1.retry_counter = k)
    ∧ ((deliver (YL620.rx_exception N false) sy faults).1.retry_counter = 0
      ∧ (deliver (YL620.rx_exception N false) sy faults).2
          = (faults.take (N - 1)).map (fun f => recovery f.2) ++ [[Event.system_raise_alarm]]
      ∧ ∀ k, k < N →
          (deliver (YL620.rx_exception N false) sy (faults.take k)).1.retry_counter = k) := by
  have hne : faults ≠ [] := by
    intro h
    rw [h] at hlen
    simp at hlen
    omega
  refine ⟨?_, ?_⟩
  · obtain ⟨h1, h2⟩ := deliver_reaching (MODVFD.rx_exception N false)
      (fun s => s.retry_counter) N (modvfd_fault_step N hfit) (modvfd_fault_last N hfit)
      faults sm hctx hne (by simp only [hm0, hlen]; omega)
    refine ⟨h1, by rw [h2, hlen], ?_⟩
    intro k hk
    have hlk : (faults.take k).length = k := by rw [List.length_take, hlen]; omega
    have h3 := (deliver_below (MODVFD.rx_exception N false) (fun s => s.retry_counter) N
      (modvfd_fault_step N hfit) (faults.take k) sm
      (fun f hf => hctx f (List.mem_of_mem_take hf)) (by simp only [hm0, hlk]; omega)).1
    simp only [hm0, hlk] at h3
    omega
  · obtain ⟨h1, h2⟩ := deliver_reaching (YL620.rx_exception N false)
      (fun s => s.retry_counter) N (yl620_fault_step N hfit) (yl620_fault_last N hfit)
      faults sy hctx hne (by simp only [hy0, hlen]; omega)
    refine ⟨h1, by rw [h2, hlen], ?_⟩
    intro k hk
    have hlk : (faults.take k).length = k := by rw [List.length_take, hlen]; omega
    have h3 := (deliver_below (YL620.rx_exception N false) (fun s => s.retry_counter) N
      (yl620_fault_step N hfit) (faults.take k) sy
      (fun f hf => hctx f (List.mem_of_mem_take hf)) (by simp only [hy0, hlk]; omega)).1
    simp only [hy0, hlk] at h3
    omega

/-- Witness for C4: three faults (a failed run/stop write, a failed speed write, a failed speed
query) with a maximum of three. -/
theorem retry_bound_witness :
    (1 ≤ 3) ∧ (3 < 65536) ∧ MODVFD.init.retry_counter = 0 ∧ YL620.init.retry_counter = 0
    ∧ [(4, VFD_SetStatus), (4, VFD_SetRPM), (4, VFD_GetRPM)].length = 3
    ∧ (deliver (MODVFD.rx_exception 3 false) MODVFD.init
          [(4, VFD_SetStatus), (4, VFD_SetRPM), (4, VFD_GetRPM)]).2
        = [[Event.modbus_reset, Event.hal_get_state, Event.hal_set_state],
           [Event.modbus_reset, Event.hal_get_state, Event.hal_set_state],
           [Event.system_raise_alarm]] := by
  refine ⟨by decide, by decide, rfl, rfl, rfl, ?_⟩
  rw [(retry_bound 3 (by decide) (by decide) MODVFD.init YL620.init rfl rfl
    [(4, VFD_SetStatus), (4, VFD_SetRPM), (4, VFD_GetRPM)] rfl (by decide)).1.2.1]
  decide

theorem modvfd_no_alarm_65536 :
    ∀ (fs : List (Nat × Nat)) (s : MODVFD.State), (∀ f ∈ fs, f.2 ≠ 0) →
      (deliver (MODVFD.rx_exception 65536 false) s fs).2 = fs.map (fun f => recovery f.2) := by
  intro fs
  induction fs with
  | nil => intro s _; rfl
  | cons f rest ih =>
    intro s hctx
    obtain ⟨code, ctx⟩ := f
    have hpos : ctx > 0 := Nat.pos_of_ne_zero (hctx (code, ctx) (List.mem_cons_self _ _))
    have hnot : ¬ ((s.retry_counter + 1) % 65536 ≥ 65536) :=
      Nat.not_le.mpr (Nat.mod_lt _ (by decide))
    have hev : (MODVFD.rx_exception 65536 false s code ctx).2 = recovery ctx := by
      unfold MODVFD.rx_exception recovery
      simp only [hpos, hnot, if_true, if_false, Bool.false_eq_true]
      split_ifs <;> rfl
    simp only [deliver, List.map_cons, hev,
      ih (MODVFD.rx_exception 65536 false s code ctx).1
        (fun g hg => hctx g (List.mem_cons_of_mem _ hg))]

/-- Counterexample to C4 as stated: with a maximum of 65536 the 16-bit counter wraps to 0
before reaching it, and 65536 consecutive failed speed queries raise no alarm at all. -/
theorem no_alarm_at_65536 :
    1 ≤ 65536 ∧ MODVFD.init.retry_counter = 0
    ∧ (List.replicate 65536 (4, VFD_GetRPM)).length = 65536
    ∧ (deliver (MODVFD.rx_exception 65536 false) MODVFD.init
          (List.replicate 65536 (4, VFD_GetRPM))).2
        = List.replicate 65536 [Event.modbus_reset, Event.hal_get_state] := by
  refine ⟨by decide, rfl, List.length_replicate _ _, ?_⟩
  rw [modvfd_no_alarm_65536 _ _ (fun f hf => by
    rw [List.eq_of_mem_replicate hf]; decide), List.map_replicate]
  rfl

/-! ## C5: faults during cold start -/

/-- C5: in each adapter, for every fault code and context, a fault delivered during cold start
does nothing but enqueue one raise-alarm action on the real-time command queue: no alarm is
raised directly, the transport is not reset, nothing is re-issued and the state, the retry
counter included, is unchanged. -/
theorem cold_start_fault (N : Nat) (sm : MODVFD.State) (sy : YL620.State) (sh : Huanyang.State)
    (code context : Nat) :
    MODVFD.rx_exception N true sm code context = (sm, [Event.enqueue_raise_alarm])
    ∧ YL620.rx_exception N true sy code context = (sy, [Event.enqueue_raise_alarm])
    ∧ Huanyang.rx_exception true sh code context = (sh, [Event.enqueue_raise_alarm]) :=
  ⟨rfl, rfl, rfl⟩

/-! ## C6: faults without a command context -/

/-- C6: generic and YL620 adapters, outside cold start: a fault with the neutral context 0
sets the retry counter to 0 and raises the alarm once, immediately, whatever the counter was;
the transport is not reset and nothing is re-issued. -/
theorem neutral_fault (N : Nat) (sm : MODVFD.State) (sy : YL620.State) (code : Nat) :
    MODVFD.rx_exception N false sm code VFD_Idle
        = ({ sm with retry_counter := 0 }, [Event.system_raise_alarm])
    ∧ YL620.rx_exception N false sy code VFD_Idle
        = ({ sy with retry_counter := 0 }, [Event.system_raise_alarm])
    ∧ VFD_Idle = 0 :=
  ⟨rfl, rfl, rfl⟩

/-! ## C7: Huanyang, a repeated set_state does not re-program the speed -/

theorem huanyang_mode_cmd_context (modbus : modbus_settings_t) (state : spindle_state_t)
    (rpm : ℚ) : (Huanyang.mode_cmd modbus state rpm).context = VFD_SetStatus := by
  unfold Huanyang.mode_cmd
  split <;> rfl

theorem huanyang_rpm_cmd_context (modbus : modbus_settings_t) (s : Huanyang.State) (rpm : ℚ)
    (m : modbus_message_t) (h : Huanyang.rpm_cmd modbus s rpm = some m) :
    m.context = VFD_SetRPM := by
  unfold Huanyang.rpm_cmd at h
  split at h
  · split at h
    · exact absurd h (by simp)
    · simp only [Option.some.injEq] at h
      rw [← h]
  · split at h
    · exact absurd h (by simp)
    · simp only [Option.some.injEq] at h
      rw [← h]

theorem huanyang_set_rpm_cases (modbus : modbus_settings_t) (tol : ℚ) (s : Huanyang.State)
    (rpm : ℚ) (block result : Bool) (s1 : Huanyang.State) (evs : List Event)
    (h : Huanyang.spindleSetRPM modbus tol s rpm block result = some (s1, evs)) :
    s1.rpm_programmed = rpm ∧ s1.vfd_state.is_on = s.vfd_state.is_on
      ∧ s1.vfd_state.ccw = s.vfd_state.ccw
      ∧ ((rpm = s.rpm_programmed ∧ evs = [] ∧ s1 = s)
          ∨ (rpm ≠ s.rpm_programmed
              ∧ ∃ m, Huanyang.rpm_cmd modbus s rpm = some m
                ∧ evs = [Event.modbus_send m block result])) := by
  unfold Huanyang.spindleSetRPM at h
  split at h
  · rename_i hne
    split at h
    · exact absurd h (by simp)
    · rename_i cmd hcmd
      simp only [Option.some.injEq, Prod.mk.injEq] at h
      obtain ⟨rfl, rfl⟩ := h
      refine ⟨rfl, ?_, ?_, Or.inr ⟨hne, cmd, hcmd, rfl⟩⟩
      · split <;> rfl
      · split <;> rfl
  · rename_i hnot
    simp only [Option.some.injEq, Prod.mk.injEq] at h
    obtain ⟨rfl, rfl⟩ := h
    exact ⟨(not_not.mp hnot).symm, rfl, rfl, Or.inl ⟨not_not.mp hnot, rfl, rfl⟩⟩

theorem huanyang_set_state_sent (modbus : modbus_settings_t) (tol : ℚ) (s : Huanyang.State)
    (state : spindle_state_t) (rpm : ℚ) (sent_rpm : Bool) :
    Huanyang.spindleSetState modbus tol s state rpm true sent_rpm
      = match Huanyang.spindleSetRPM modbus tol
          { (if s.vfd_state.ccw ≠ state.ccw then { s with rpm_programmed := 0 } else s) with
            vfd_state :=
              { (if s.vfd_state.ccw ≠ state.ccw then { s with rpm_programmed := 0 }
                  else s).vfd_state with
                is_on := state.is_on, ccw := state.ccw } }
          rpm true sent_rpm with
        | none => none
        | some (s3, evs) =>
          some (s3, Event.modbus_send (Huanyang.mode_cmd modbus state rpm) true true :: evs) := by
  simp only [ Huanyang.spindleSetState, if_true]

theorem huanyang_set_state_programmed (modbus : modbus_settings_t) (tol : ℚ) (s : Huanyang.State)
    (state : spindle_state_t) (rpm : ℚ) (sent_rpm : Bool) (s1 : Huanyang.State)
    (ev1 : List Event)
    (h : Huanyang.spindleSetState modbus tol s state rpm true sent_rpm = some (s1, ev1)) :
    s1.rpm_programmed = rpm ∧ s1.vfd_state.is_on = state.is_on ∧ s1.vfd_state.ccw = state.ccw
      ∧ (sent_with VFD_SetRPM ev1).length ≤ 1 := by
  rw [huanyang_set_state_sent] at h
  have hm : (Huanyang.mode_cmd modbus state rpm).context ≠ VFD_SetRPM := by
    rw [huanyang_mode_cmd_context]
    decide
  split at h
  · exact absurd h (by simp)
  · rename_i s3 evs heq
    simp only [Option.some.injEq, Prod.mk.injEq] at h
    obtain ⟨rfl, rfl⟩ := h
    obtain ⟨hp, hon, hccw, hcases⟩ := huanyang_set_rpm_cases _ _ _ _ _ _ _ _ heq
    refine ⟨hp, hon, hccw, ?_⟩
    rcases hcases with ⟨_, rfl, _⟩ | ⟨_, m, _, rfl⟩
    · simp [sent_with, hm]
    · simp only [sent_with, hm, if_false]
      split <;> simp

/-- C7: Huanyang adapter, for every `(on, ccw, rpm)` and either drive generation, with all
blocking sends successful: when `set_state(on, ccw, rpm)` has returned, it has issued at most
one speed-write frame, and an immediately repeated `set_state(on, ccw, rpm)` issues the
run/stop frame only, no speed-write frame, and leaves the whole adapter state (last-programmed
RPM and tolerance limits included) unchanged. -/
theorem huanyang_set_state_idempotent (modbus : modbus_settings_t) (tol : ℚ) (s : Huanyang.State)
    (state : spindle_state_t) (rpm : ℚ) (s1 : Huanyang.State) (ev1 : List Event)
    (h : Huanyang.spindleSetState modbus tol s state rpm true true = some (s1, ev1)) :
    (sent_with VFD_SetRPM ev1).length ≤ 1
    ∧ Huanyang.spindleSetState modbus tol s1 state rpm true true
        = some (s1, [Event.modbus_send (Huanyang.mode_cmd modbus state rpm) true true])
    ∧ sent_with VFD_SetRPM [Event.modbus_send (Huanyang.mode_cmd modbus state rpm) true true] = []
    ∧ (Huanyang.mode_cmd modbus state rpm).context = VFD_SetStatus := by
  obtain ⟨hp, hon, hccw, hlen⟩ :=
    huanyang_set_state_programmed modbus tol s state rpm true s1 ev1 h
  have hm := huanyang_mode_cmd_context modbus state rpm
  refine ⟨hlen, ?_, ?_, hm⟩
  · have hs : ({ rpm_programmed := s1.rpm_programmed
                 vfd_state := { is_on := state.is_on, ccw := state.ccw,
                                at_speed := s1.vfd_state.at_speed }
                 spindle_data := s1.spindle_data
                 rpm_max := s1.rpm_max
                 rpm_max50 := s1.rpm_max50 } : Huanyang.State) = s1 := by
      rw [← hon, ← hccw]
    rw [huanyang_set_state_sent]
    simp only [hccw, ne_eq, not_true_eq_false, if_false, Huanyang.spindleSetRPM, hp]
    rw [hp] at hs
    rw [hs]
  · simp only [sent_with, hm]
    exact if_neg (by decide)

/-- Witness for C7: a v2 drive with learned maximum 24000, started clockwise at 1000 RPM. -/
theorem huanyang_set_state_idempotent_witness :
    ∃ s1 ev1, Huanyang.spindleSetState modbus_v2 0 huanyang_learned run_cw 1000 true true
        = some (s1, ev1)
      ∧ (sent_with VFD_SetRPM ev1).length = 1
      ∧ Huanyang.spindleSetState modbus_v2 0 s1 run_cw 1000 true true
        = some (s1, [Event.modbus_send (Huanyang.mode_cmd modbus_v2 run_cw 1000) true true]) := by
  have h : ∃ s1 ev1, Huanyang.spindleSetState modbus_v2 0 huanyang_learned run_cw 1000 true true
      = some (s1, ev1) ∧ (sent_with VFD_SetRPM ev1).length = 1 := ⟨_, _, rfl, by decide⟩
  obtain ⟨s1, ev1, h1, h2⟩ := h
  exact ⟨s1, ev1, h1, h2,
    (huanyang_set_state_idempotent modbus_v2 0 huanyang_learned run_cw 1000 s1 ev1 h1).2.1⟩

/-! ## C8: generic and YL620 adapters, a repeated set_state re-programs the speed -/

/-- C8 (as amended): generic and YL620 adapters, for every `(on, ccw, rpm)` with a defined unit
conversion (`in_divider`, respectively `vfd_rpm_hz`, not 0) and all blocking sends successful:
`set_state(on, ccw, rpm)` issues the run/stop frame followed by one speed-write frame, and an
immediately repeated `set_state(on, ccw, rpm)` issues the same two frames again; these adapters
do not de-duplicate speed writes. -/
theorem set_state_repeats_speed_write (cfg : vfd_settings_t) (modbus : modbus_settings_t)
    (tol : ℚ) (sm : MODVFD.State) (sy : YL620.State) (state : spindle_state_t) (rpm : ℚ)
    (hdiv : cfg.in_divider ≠ 0) (hhz : modbus.vfd_rpm_hz ≠ 0) :
    (∃ s1 s2 f m,
        MODVFD.modvfd_spindleSetState cfg tol sm state rpm true true
          = some (s1, [Event.modbus_send f true true, Event.modbus_send m true true])
        ∧ MODVFD.modvfd_spindleSetState cfg tol s1 state rpm true true
          = some (s2, [Event.modbus_send f true true, Event.modbus_send m true true])
        ∧ f.context = VFD_SetStatus ∧ m.context = VFD_SetRPM)
    ∧ (∃ s1 s2 f m,
        YL620.spindleSetState modbus tol sy state rpm true true
          = some (s1, [Event.modbus_send f true true, Event.modbus_send m true true])
        ∧ YL620.spindleSetState modbus tol s1 state rpm true true
          = some (s2, [Event.modbus_send f true true, Event.modbus_send m true true])
        ∧ f.context = VFD_SetStatus ∧ m.context = VFD_SetRPM) := by
  refine ⟨?_, ?_⟩
  · simp only [ MODVFD.modvfd_spindleSetState, MODVFD.spindleSetRPM, hdiv, if_false, if_true]
    exact ⟨_, _, _, _, rfl, rfl, rfl, rfl⟩
  · simp only [ YL620.spindleSetState, YL620.spindleSetRPM, hhz, if_false, if_true]
    exact ⟨_, _, _, _, rfl, rfl, rfl, rfl⟩

/-- Witness for C8: the generic adapter with unit ratios and a YL620 at 60 RPM per Hz, started
clockwise at 1000 RPM twice. -/
theorem set_state_repeats_speed_write_witness :
    cfg_unit.in_divider ≠ 0 ∧ modbus_v1.vfd_rpm_hz ≠ 0
    ∧ ∃ s1 s2 f m,
        MODVFD.modvfd_spindleSetState cfg_unit 0 MODVFD.init run_cw 1000 true true
          = some (s1, [Event.modbus_send f true true, Event.modbus_send m true true])
        ∧ MODVFD.modvfd_spindleSetState cfg_unit 0 s1 run_cw 1000 true true
          = some (s2, [Event.modbus_send f true true, Event.modbus_send m true true])
        ∧ f.context = VFD_SetStatus ∧ m.context = VFD_SetRPM :=
  ⟨by decide, by decide,
   (set_state_repeats_speed_write cfg_unit modbus_v1 0 MODVFD.init YL620.init run_cw 1000
      (by decide) (by decide)).1⟩

/-- Counterexample to C8 as stated: the second of two identical `set_state(on, clockwise, 1000)`
calls issues a speed-write frame, carrying 1000 on the generic adapter with unit ratios and
166 on a YL620 at 60 RPM per Hz. -/
theorem second_set_state_writes_speed :
    (twice (fun s => MODVFD.modvfd_spindleSetState cfg_unit 0 s run_cw 1000 true true)
        MODVFD.init).map (fun r => sent_with VFD_SetRPM r.2)
      = some [write_register VFD_SetRPM false 0x2001 1000]
    ∧ (twice (fun s => YL620.spindleSetState modbus_v1 0 s run_cw 1000 true true)
        YL620.init).map (fun r => sent_with VFD_SetRPM r.2)
      = some [write_register VFD_SetRPM false 0x2001 166] := by
  constructor <;> decide

/-! ## C9: Huanyang, a direction change forces re-programming -/

theorem huanyang_rpm_cmd_congr (modbus : modbus_settings_t) (s t : Huanyang.State) (rpm : ℚ)
    (h1 : t.rpm_max = s.rpm_max) (h2 : t.rpm_max50 = s.rpm_max50) :
    Huanyang.rpm_cmd modbus t rpm = Huanyang.rpm_cmd modbus s rpm := by
  unfold Huanyang.rpm_cmd
  rw [h1, h2]

theorem huanyang_set_rpm_defined (modbus : modbus_settings_t) (tol : ℚ) (s : Huanyang.State)
    (rpm : ℚ) (block result : Bool) (m : modbus_message_t)
    (hm : Huanyang.rpm_cmd modbus s rpm = some m) :
    ∃ s1 evs, Huanyang.spindleSetRPM modbus tol s rpm block result = some (s1, evs)
      ∧ s1.rpm_max = s.rpm_max ∧ s1.rpm_max50 = s.rpm_max50
      ∧ s1.vfd_state.ccw = s.vfd_state.ccw ∧ s1.rpm_programmed = rpm
      ∧ (rpm ≠ s.rpm_programmed → evs = [Event.modbus_send m block result]) := by
  by_cases hne : rpm ≠ s.rpm_programmed
  · simp only [ Huanyang.spindleSetRPM, hne, hm, ne_eq, not_false_eq_true, if_true]
    refine ⟨_, _, rfl, ?_, ?_, ?_, rfl, fun _ => rfl⟩
    · split <;> rfl
    · split <;> rfl
    · split <;> rfl
  · simp only [ Huanyang.spindleSetRPM, hne, if_false]
    exact ⟨_, _, rfl, rfl, rfl, rfl, (not_not.mp hne).symm, fun h => h.elim⟩

/-- Huanyang adapter, the direction change where the speed conversion is defined: for every
`R` other than 0 whose speed message exists in the current state (v2: learned `rpm_max` not 0;
v1: `rpm_max50` not 0), with all blocking sends successful, `set_state(on, clockwise, R)`
followed by `set_state(on, counter-clockwise, R)` issues, in the second call, the run/stop
frame and then the speed-write frame for `R`, although `R` is unchanged. -/
theorem huanyang_direction_change_reprograms (modbus : modbus_settings_t) (tol : ℚ)
    (s : Huanyang.State) (st1 st2 : spindle_state_t) (R : ℚ) (m : modbus_message_t)
    (hR : R ≠ 0) (hm : Huanyang.rpm_cmd modbus s R = some m)
    (hcw : st1.ccw = false) (hccw : st2.ccw = true) :
    ∃ s1 ev1 s2,
      Huanyang.spindleSetState modbus tol s st1 R true true = some (s1, ev1)
      ∧ Huanyang.spindleSetState modbus tol s1 st2 R true true
          = some (s2, [Event.modbus_send (Huanyang.mode_cmd modbus st2 R) true true,
                       Event.modbus_send m true true])
      ∧ m.context = VFD_SetRPM ∧ s2.rpm_programmed = R := by
  obtain ⟨s1, ev1, h1, hmax, hmax50, hc1, -, -⟩ :=
    huanyang_set_rpm_defined modbus tol
      { (if s.vfd_state.ccw ≠ st1.ccw then { s with rpm_programmed := 0 } else s) with
        vfd_state :=
          { (if s.vfd_state.ccw ≠ st1.ccw then { s with rpm_programmed := 0 }
              else s).vfd_state with
            is_on := st1.is_on, ccw := st1.ccw } }
      R true true m
      (by rw [← hm]; apply huanyang_rpm_cmd_congr <;> split <;> rfl)
  have hcs1 : s1.vfd_state.ccw = false := by rw [hc1]; exact hcw
  have hmax1 : s1.rpm_max = s.rpm_max := by rw [hmax]; split <;> rfl
  have hmax501 : s1.rpm_max50 = s.rpm_max50 := by rw [hmax50]; split <;> rfl
  have hne : s1.vfd_state.ccw ≠ st2.ccw := by rw [hcs1, hccw]; decide
  obtain ⟨s2, ev2, h2, -, -, -, hp2, hev2⟩ :=
    huanyang_set_rpm_defined modbus tol
      { ({ s1 with rpm_programmed := 0 } : Huanyang.State) with
        vfd_state := { s1.vfd_state with is_on := st2.is_on, ccw := st2.ccw } }
      R true true m
      (by rw [← hm]; exact huanyang_rpm_cmd_congr modbus s _ R hmax1 hmax501)
  refine ⟨s1, Event.modbus_send (Huanyang.mode_cmd modbus st1 R) true true :: ev1, s2,
    ?_, ?_, huanyang_rpm_cmd_context modbus s R m hm, hp2⟩
  · rw [huanyang_set_state_sent, h1]
  · rw [huanyang_set_state_sent]
    simp only [hne, ne_eq, not_false_eq_true, if_true]
    rw [h2, hev2 hR]

/-- An instance of the direction change: a v2 drive with learned maximum 24000 at 1000 RPM. -/
theorem huanyang_direction_change_reprograms_witness :
    (1000 : ℚ) ≠ 0
    ∧ Huanyang.rpm_cmd modbus_v2 huanyang_learned 1000 = some v2_speed_1000
    ∧ ∃ s1 ev1 s2,
      Huanyang.spindleSetState modbus_v2 0 huanyang_learned run_cw 1000 true true
        = some (s1, ev1)
      ∧ Huanyang.spindleSetState modbus_v2 0 s1 run_ccw 1000 true true
          = some (s2, [Event.modbus_send (Huanyang.mode_cmd modbus_v2 run_ccw 1000) true true,
                       Event.modbus_send v2_speed_1000 true true])
      ∧ v2_speed_1000.context = VFD_SetRPM ∧ s2.rpm_programmed = 1000 :=
  ⟨by decide, by decide,
   huanyang_direction_change_reprograms modbus_v2 0 huanyang_learned run_cw run_ccw 1000
     v2_speed_1000 (by decide) (by decide) rfl rfl⟩

/-- C9, the code at the failing input: on a v2 drive whose learned maximum `rpm_max` is 0,
after a clockwise start at the already programmed 1000 RPM the counter-clockwise `set_state`
resets the last-programmed RPM and re-programs the speed, and the conversion divides by zero:
the call has no result and no speed-write frame for 1000 RPM.  From the initial state
(nothing learned yet) the clockwise start itself has none. -/
theorem huanyang_direction_change_undefined :
    (1000 : ℚ) ≠ 0
    ∧ (∃ s1 ev1,
        Huanyang.spindleSetState modbus_v2 0 huanyang_unlearned run_cw 1000 true true
          = some (s1, ev1)
        ∧ Huanyang.spindleSetState modbus_v2 0 s1 run_ccw 1000 true true = none)
    ∧ Huanyang.spindleSetState modbus_v2 0 Huanyang.init run_cw 1000 true true = none := by
  refine ⟨by decide, ⟨_, _, rfl, ?_⟩, ?_⟩ <;> decide

/-! ## YL620, the speed-write message -/

theorem yl620_rpm_cmd_eq (data : Nat) :
    ({ context := VFD_SetRPM
       crc_check := false
       adu := [some VFD_ADDRESS, some ModBus_WriteRegister, some 0x20, some 0x01,
               some ((data >>> 8) % 256), some (data &&& 0xFF)]
       tx_length := 8
       rx_length := 8 } : modbus_message_t) = write_register VFD_SetRPM false 0x2001 data := by
  simp only [write_register, and_0xFF, shr_8]

/-! ## C12: generic adapter, run/stop policy -/

theorem modvfd_set_state_head (cfg : vfd_settings_t) (tol : ℚ) (s : MODVFD.State)
    (state : spindle_state_t) (rpm : ℚ) (sent_mode sent_rpm : Bool) (s1 : MODVFD.State)
    (evs : List Event)
    (h : MODVFD.modvfd_spindleSetState cfg tol s state rpm sent_mode sent_rpm = some (s1, evs)) :
    evs.head? = some (Event.modbus_send
      (write_register VFD_SetStatus true cfg.runstop_reg (modvfd_policy cfg state rpm % 256))
      true sent_mode) := by
  have hpol : (if state.is_on = false ∨ rpm = 0 then cfg.stop_cmd % 256
      else if state.ccw = true then cfg.run_ccw_cmd % 256 else cfg.run_cw_cmd % 256)
      = modvfd_policy cfg state rpm % 256 := by
    unfold modvfd_policy
    split_ifs <;> rfl
  simp only [ MODVFD.modvfd_spindleSetState, hpol, modvfd_mode_cmd_eq] at h
  split at h
  · rename_i hs
    split at h
    · exact absurd h (by simp)
    · simp only [Option.some.injEq, Prod.mk.injEq] at h
      rw [← h.2, hs]
      rfl
  · rename_i hs
    simp only [Option.some.injEq, Prod.mk.injEq] at h
    rw [← h.2, Bool.eq_false_iff.mpr hs]
    rfl

theorem modvfd_set_state_returns (cfg : vfd_settings_t) (tol : ℚ) (s : MODVFD.State)
    (state : spindle_state_t) (rpm : ℚ) (sent_mode sent_rpm : Bool)
    (h : sent_mode = false ∨ cfg.in_divider ≠ 0) :
    ∃ s1 evs,
      MODVFD.modvfd_spindleSetState cfg tol s state rpm sent_mode sent_rpm = some (s1, evs) := by
  rcases h with h | h
  · simp only [ MODVFD.modvfd_spindleSetState, h, Bool.false_eq_true, if_false]
    exact ⟨_, _, rfl⟩
  · cases sent_mode
    · simp only [ MODVFD.modvfd_spindleSetState, Bool.false_eq_true, if_false]
      exact ⟨_, _, rfl⟩
    · simp only [ MODVFD.modvfd_spindleSetState, MODVFD.spindleSetRPM, h, if_false, if_true]
      exact ⟨_, _, rfl⟩

/-- Generic adapter, the run/stop frame: for every `(on, ccw, rpm)` and every configuration,
the first frame `set_state` sends is a write-single-register frame to `runstop_reg` carrying
the selected command as held in the `uint8_t runstop` (its low byte), the command being
`stop_cmd` if `on = false` or `rpm = 0`, otherwise `run_ccw_cmd` if `ccw` is set and
`run_cw_cmd` if not; the high value byte is 0.  `set_state` returns unless the run/stop send
succeeded and `in_divider` is 0. -/
theorem modvfd_run_stop_policy (cfg : vfd_settings_t) (tol : ℚ) (s : MODVFD.State)
    (state : spindle_state_t) (rpm : ℚ) (sent_mode sent_rpm : Bool) :
    (∀ s1 evs,
        MODVFD.modvfd_spindleSetState cfg tol s state rpm sent_mode sent_rpm = some (s1, evs) →
        evs.head? = some (Event.modbus_send
          (write_register VFD_SetStatus true cfg.runstop_reg (modvfd_policy cfg state rpm % 256))
          true sent_mode))
    ∧ ((sent_mode = false ∨ cfg.in_divider ≠ 0) → ∃ s1 evs,
        MODVFD.modvfd_spindleSetState cfg tol s state rpm sent_mode sent_rpm = some (s1, evs))
    ∧ (write_register VFD_SetStatus true cfg.runstop_reg (modvfd_policy cfg state rpm % 256)).adu
        = [some VFD_ADDRESS, some ModBus_WriteRegister, some (cfg.runstop_reg / 256 % 256),
           some (cfg.runstop_reg % 256), some 0, some (modvfd_policy cfg state rpm % 256)]
    ∧ (write_register VFD_SetStatus true cfg.runstop_reg
          (modvfd_policy cfg state rpm % 256)).value16
        = some (modvfd_policy cfg state rpm % 256)
    ∧ modvfd_policy cfg state rpm
        = (if state.is_on = false ∨ rpm = 0 then cfg.stop_cmd
           else if state.ccw = true then cfg.run_ccw_cmd else cfg.run_cw_cmd) := by
  refine ⟨fun s1 evs h => modvfd_set_state_head cfg tol s state rpm sent_mode sent_rpm s1 evs h,
    modvfd_set_state_returns cfg tol s state rpm sent_mode sent_rpm, ?_,
    write_register_value16 _ _ _ _ (by omega), rfl⟩
  simp only [write_register]
  have h0 : modvfd_policy cfg state rpm % 256 / 256 % 256 = 0 := by omega
  have h1 : modvfd_policy cfg state rpm % 256 % 256 = modvfd_policy cfg state rpm % 256 := by
    omega
  rw [h0, h1]

/-- An instance of the run/stop frame: a counter-clockwise start at 1000 RPM with the commands
18, 34 and 1 sends 34 to register `0x2000`. -/
theorem modvfd_run_stop_policy_witness :
    ∃ s1 evs,
      MODVFD.modvfd_spindleSetState cfg_unit 0 MODVFD.init run_ccw 1000 true true
        = some (s1, evs)
      ∧ evs.head? = some (Event.modbus_send (write_register VFD_SetStatus true 0x2000 34)
          true true) := by
  have h := modvfd_run_stop_policy cfg_unit 0 MODVFD.init run_ccw 1000 true true
  obtain ⟨s1, evs, h1⟩ := h.2.1 (Or.inr (by decide))
  exact ⟨s1, evs, h1, h.1 s1 evs h1⟩

/-- C12, the code at the failing input: with `stop_cmd = 0x0101` the run/stop frame of
`set_state(off, 0)` carries the 16-bit value 1 (high byte 0, low byte 1), not the stop
command: the command passes through the `uint8_t runstop`. -/
theorem modvfd_stop_cmd_truncated :
    cfg_wide_stop.stop_cmd = 257
    ∧ ∃ s1 f rest,
      MODVFD.modvfd_spindleSetState cfg_wide_stop 0 MODVFD.init run_off 0 true true
        = some (s1, Event.modbus_send f true true :: rest)
      ∧ f.reg16 = some cfg_wide_stop.runstop_reg
      ∧ f.adu = [some 0x01, some 0x06, some 0x20, some 0x00, some 0x00, some 0x01]
      ∧ f.value16 ≠ some cfg_wide_stop.stop_cmd := by
  refine ⟨rfl, _, _, _, rfl, ?_, ?_, ?_⟩ <;> decide

/-! ## C13: YL620 command register encoding -/

theorem yl620_mode_cmd_eq (state : spindle_state_t) (rpm : ℚ) :
    ({ context := VFD_SetStatus
       crc_check := false
       adu := [some VFD_ADDRESS, some ModBus_WriteRegister, some 0x20, some 0x00, some 0x00,
               some ((if state.ccw = true then 0x20 else 0x10)
                      ||| (if state.is_on = false ∨ rpm = 0 then 0x1 else 0x2))]
       tx_length := 8
       rx_length := 8 } : modbus_message_t)
      = write_register VFD_SetStatus false 0x2000 (yl620_command state rpm) := by
  unfold yl620_command write_register
  split_ifs <;> rfl

theorem yl620_set_state_head (modbus : modbus_settings_t) (tol : ℚ) (s : YL620.State)
    (state : spindle_state_t) (rpm : ℚ) (sent_mode sent_rpm : Bool) (s1 : YL620.State)
    (evs : List Event)
    (h : YL620.spindleSetState modbus tol s state rpm sent_mode sent_rpm = some (s1, evs)) :
    evs.head? = some (Event.modbus_send
      (write_register VFD_SetStatus false 0x2000 (yl620_command state rpm)) true sent_mode) := by
  simp only [ YL620.spindleSetState, yl620_mode_cmd_eq] at h
  split at h
  · rename_i hs
    split at h
    · exact absurd h (by simp)
    · simp only [Option.some.injEq, Prod.mk.injEq] at h
      rw [← h.2, hs]
      rfl
  · rename_i hs
    simp only [Option.some.injEq, Prod.mk.injEq] at h
    rw [← h.2, Bool.eq_false_iff.mpr hs]
    rfl

theorem yl620_set_state_returns (modbus : modbus_settings_t) (tol : ℚ) (s : YL620.State)
    (state : spindle_state_t) (rpm : ℚ) (sent_mode sent_rpm : Bool)
    (h : sent_mode = false ∨ modbus.vfd_rpm_hz ≠ 0) :
    ∃ s1 evs, YL620.spindleSetState modbus tol s state rpm sent_mode sent_rpm = some (s1, evs) := by
  rcases h with h | h
  · simp only [ YL620.spindleSetState, h, Bool.false_eq_true, if_false]
    exact ⟨_, _, rfl⟩
  · cases sent_mode
    · simp only [ YL620.spindleSetState, Bool.false_eq_true, if_false]
      exact ⟨_, _, rfl⟩
    · simp only [ YL620.spindleSetState, YL620.spindleSetRPM, h, if_false, if_true]
      exact ⟨_, _, rfl⟩

theorem yl620_command_bits (state : spindle_state_t) (rpm : ℚ) :
    yl620_command state rpm < 256
    ∧ yl620_command state rpm % 4 = (if state.is_on = false ∨ rpm = 0 then 1 else 2)
    ∧ yl620_command state rpm / 16 % 4 = (if state.ccw = true then 2 else 1)
    ∧ yl620_command state rpm
        = yl620_command state rpm % 4 + 16 * (yl620_command state rpm / 16 % 4) := by
  unfold yl620_command
  split_ifs <;> decide

/-- C13: YL620, for every `(on, ccw, rpm)`: the first frame `set_state` sends is a
write-single-register (`0x06`) frame to register `0x2000` whose value `v` has high byte 0,
bits 1:0 equal to `b01` if `on = false` or `rpm = 0` and `b10` otherwise, bits 5:4 equal to
`b10` if `ccw` and `b01` otherwise, and no other bit set; `set_state` returns unless the
run/stop send succeeded and `vfd_rpm_hz` is 0.  Every speed-write frame is a
write-single-register frame to register `0x2001`, and the speed query reads one holding
register at `0x200B`. -/
theorem yl620_command_register (modbus : modbus_settings_t) (tol : ℚ) (s : YL620.State)
    (state : spindle_state_t) (rpm : ℚ) (sent_mode sent_rpm block result : Bool)
    (encoder : Option ℚ) :
    (∀ s1 evs, YL620.spindleSetState modbus tol s state rpm sent_mode sent_rpm = some (s1, evs) →
        evs.head? = some (Event.modbus_send
          (write_register VFD_SetStatus false 0x2000 (yl620_command state rpm)) true sent_mode))
    ∧ ((sent_mode = false ∨ modbus.vfd_rpm_hz ≠ 0) → ∃ s1 evs,
        YL620.spindleSetState modbus tol s state rpm sent_mode sent_rpm = some (s1, evs))
    ∧ (write_register VFD_SetStatus false 0x2000 (yl620_command state rpm)).adu
        = [some 0x01, some 0x06, some 0x20, some 0x00, some 0x00,
           some (yl620_command state rpm)]
    ∧ (yl620_command state rpm < 256
      ∧ yl620_command state rpm % 4 = (if state.is_on = false ∨ rpm = 0 then 1 else 2)
      ∧ yl620_command state rpm / 16 % 4 = (if state.ccw = true then 2 else 1)
      ∧ yl620_command state rpm
          = yl620_command state rpm % 4 + 16 * (yl620_command state rpm / 16 % 4))
    ∧ (∀ s1 evs, YL620.spindleSetRPM modbus tol s rpm block result = some (s1, evs) →
        ∃ data, evs = [Event.modbus_send (write_register VFD_SetRPM false 0x2001 data)
                        block result]
          ∧ (write_register VFD_SetRPM false 0x2001 data).adu.take 4
              = [some 0x01, some 0x06, some 0x20, some 0x01])
    ∧ (YL620.spindleGetState tol s encoder result).2.1
        = [Event.modbus_send
            { context := VFD_GetRPM
              crc_check := false
              adu := [some 0x01, some 0x03, some 0x20, some 0x0B, some 0x00, some 0x01]
              tx_length := 8
              rx_length := 7 } false result] := by
  refine ⟨fun s1 evs h => yl620_set_state_head modbus tol s state rpm sent_mode sent_rpm s1 evs h,
    yl620_set_state_returns modbus tol s state rpm sent_mode sent_rpm, ?_,
    yl620_command_bits state rpm, ?_, rfl⟩
  · have hb := (yl620_command_bits state rpm).1
    simp only [write_register]
    have h0 : yl620_command state rpm / 256 % 256 = 0 := by omega
    have h1 : yl620_command state rpm % 256 = yl620_command state rpm := by omega
    rw [h0, h1]
    rfl
  · intro s1 evs h
    unfold YL620.spindleSetRPM at h
    split at h
    · exact absurd h (by simp)
    · simp only [yl620_rpm_cmd_eq, Option.some.injEq, Prod.mk.injEq] at h
      exact ⟨_, h.2.symm, rfl⟩

/-- Witness for C13: a counter-clockwise start at 1000 RPM writes `0x22` to `0x2000`. -/
theorem yl620_command_register_witness :
    ∃ s1 evs, YL620.spindleSetState modbus_v1 0 YL620.init run_ccw 1000 true true = some (s1, evs)
      ∧ evs.head? = some (Event.modbus_send
          (write_register VFD_SetStatus false 0x2000 0x22) true true) := by
  have h := yl620_command_register modbus_v1 0 YL620.init run_ccw 1000 true true true true none
  obtain ⟨s1, evs, h1⟩ := h.2.1 (Or.inr (by decide))
  exact ⟨s1, evs, h1, h.1 s1 evs h1⟩

/-! ## C14: Huanyang run-state values -/

theorem huanyang_set_state_head (modbus : modbus_settings_t) (tol : ℚ) (s : Huanyang.State)
    (state : spindle_state_t) (rpm : ℚ) (sent_mode sent_rpm : Bool) (s1 : Huanyang.State)
    (evs : List Event)
    (h : Huanyang.spindleSetState modbus tol s state rpm sent_mode sent_rpm = some (s1, evs)) :
    evs.head? = some (Event.modbus_send (Huanyang.mode_cmd modbus state rpm) true sent_mode) := by
  simp only [ Huanyang.spindleSetState] at h
  split at h
  · rename_i hs
    split at h
    · exact absurd h (by simp)
    · simp only [Option.some.injEq, Prod.mk.injEq] at h
      rw [← h.2, hs]
      rfl
  · rename_i hs
    simp only [Option.some.injEq, Prod.mk.injEq] at h
    rw [← h.2, Bool.eq_false_iff.mpr hs]
    rfl

/-- C14: Huanyang, for every `(on, ccw, rpm)`: the run-state frame `set_state` builds and
sends first carries, for a v2 drive, `0x20` in `adu[2]` and in `adu[5]` the value 6 if
`on = false` or `rpm = 0`, else 2 if `ccw`, else 1; for a v1 drive, `0x01` in `adu[2]` and in
`adu[3]` the value `0x08` if `on = false` or `rpm = 0`, else `0x11` if `ccw`, else `0x01`.
In both generations the stop value is carried exactly when `on = false` or `rpm = 0`. -/
theorem huanyang_run_state_values (modbus : modbus_settings_t) (tol : ℚ) (s : Huanyang.State)
    (state : spindle_state_t) (rpm : ℚ) (sent_mode sent_rpm : Bool) :
    (∀ s1 evs,
        Huanyang.spindleSetState modbus tol s state rpm sent_mode sent_rpm = some (s1, evs) →
        evs.head? = some (Event.modbus_send (Huanyang.mode_cmd modbus state rpm) true sent_mode))
    ∧ (sent_mode = false → ∃ s1,
        Huanyang.spindleSetState modbus tol s state rpm sent_mode sent_rpm
          = some (s1, [Event.modbus_send (Huanyang.mode_cmd modbus state rpm) true false]))
    ∧ (modbus.vfd_type = HUANYANG2 →
        (Huanyang.mode_cmd modbus state rpm).adu[2]? = some (some 0x20)
        ∧ (Huanyang.mode_cmd modbus state rpm).adu[5]?
            = some (some (if state.is_on = false ∨ rpm = 0 then 6
                          else if state.ccw = true then 2 else 1))
        ∧ ((Huanyang.mode_cmd modbus state rpm).adu[5]? = some (some 6)
            ↔ (state.is_on = false ∨ rpm = 0)))
    ∧ (modbus.vfd_type ≠ HUANYANG2 →
        (Huanyang.mode_cmd modbus state rpm).adu[2]? = some (some 0x01)
        ∧ (Huanyang.mode_cmd modbus state rpm).adu[3]?
            = some (some (if state.is_on = false ∨ rpm = 0 then 0x08
                          else if state.ccw = true then 0x11 else 0x01))
        ∧ ((Huanyang.mode_cmd modbus state rpm).adu[3]? = some (some 0x08)
            ↔ (state.is_on = false ∨ rpm = 0))) := by
  refine ⟨fun s1 evs h =>
      huanyang_set_state_head modbus tol s state rpm sent_mode sent_rpm s1 evs h, ?_, ?_, ?_⟩
  · intro hs
    simp only [ Huanyang.spindleSetState, hs, Bool.false_eq_true, if_false]
    exact ⟨_, rfl⟩
  · intro hv
    simp only [ Huanyang.mode_cmd, hv, if_true]
    refine ⟨rfl, rfl, ?_⟩
    split_ifs with h1 h2 <;> simp [h1]
  · intro hv
    simp only [ Huanyang.mode_cmd, hv, if_false]
    refine ⟨rfl, rfl, ?_⟩
    split_ifs with h1 h2 <;> simp [h1]

/-- Witness for C14: the v2 and v1 frames of a counter-clockwise start at 1000 RPM. -/
theorem huanyang_run_state_values_witness :
    modbus_v2.vfd_type = HUANYANG2 ∧ modbus_v1.vfd_type ≠ HUANYANG2
    ∧ (Huanyang.mode_cmd modbus_v2 run_ccw 1000).adu[5]? = some (some 2)
    ∧ (Huanyang.mode_cmd modbus_v1 run_ccw 1000).adu[3]? = some (some 0x11) :=
  ⟨rfl, by decide,
   (((huanyang_run_state_values modbus_v2 0 Huanyang.init run_ccw 1000 true true).2.2.1
      rfl).2.1).trans (by decide),
   (((huanyang_run_state_values modbus_v1 0 Huanyang.init run_ccw 1000 true true).2.2.2
      (by decide)).2.1).trans (by decide)⟩

/-! ## C15: generic adapter, speed decode -/

/-- C16 (as amended): in each adapter, for every adapter state, `get_state` sends exactly one
speed-query frame, tagged GetRPM, with the blocking flag false, and leaves the last-programmed
RPM, the telemetry and the tracked `on` and `ccw` unchanged.  When no external encoder data
source is installed it changes nothing and returns the state held before the call; when one is
installed it first sets `at_speed` from the encoder RPM and the current limits and returns the
state so updated. -/
theorem get_state_query (cfg : vfd_settings_t) (modbus : modbus_settings_t) (tol : ℚ)
    (sm : MODVFD.State) (sy : YL620.State) (sh : Huanyang.State) (encoder : Option ℚ)
    (result : Bool) :
    ((∃ m, (MODVFD.modvfd_spindleGetState cfg tol sm encoder result).2.1
          = [Event.modbus_send m false result] ∧ m.context = VFD_GetRPM)
      ∧ (MODVFD.modvfd_spindleGetState cfg tol sm encoder result).2.2
          = (MODVFD.modvfd_spindleGetState cfg tol sm encoder result).1.vfd_state
      ∧ (MODVFD.modvfd_spindleGetState cfg tol sm encoder result).1
          = { sm with vfd_state :=
                { sm.vfd_state with
                  at_speed :=
                    match encoder with
                    | none => sm.vfd_state.at_speed
                    | some rpm => at_speed_test tol rpm sm.spindle_data.rpm_low_limit
                        sm.spindle_data.rpm_high_limit } }
      ∧ (encoder = none →
          (MODVFD.modvfd_spindleGetState cfg tol sm encoder result).1 = sm
          ∧ (MODVFD.modvfd_spindleGetState cfg tol sm encoder result).2.2 = sm.vfd_state))
    ∧ ((∃ m, (YL620.spindleGetState tol sy encoder result).2.1
          = [Event.modbus_send m false result] ∧ m.context = VFD_GetRPM)
      ∧ (YL620.spindleGetState tol sy encoder result).2.2
          = (YL620.spindleGetState tol sy encoder result).1.vfd_state
      ∧ (YL620.spindleGetState tol sy encoder result).1
          = { sy with vfd_state :=
                { sy.vfd_state with
                  at_speed :=
                    match encoder with
                    | none => sy.vfd_state.at_speed
                    | some rpm => at_speed_test tol rpm sy.spindle_data.rpm_low_limit
                        sy.spindle_data.rpm_high_limit } }
      ∧ (encoder = none →
          (YL620.spindleGetState tol sy encoder result).1 = sy
          ∧ (YL620.spindleGetState tol sy encoder result).2.2 = sy.vfd_state))
    ∧ ((∃ m, (Huanyang.spindleGetState modbus tol sh encoder result).2.1
          = [Event.modbus_send m false result] ∧ m.context = VFD_GetRPM)
      ∧ (Huanyang.spindleGetState modbus tol sh encoder result).2.2
          = (Huanyang.spindleGetState modbus tol sh encoder result).1.vfd_state
      ∧ (Huanyang.spindleGetState modbus tol sh encoder result).1
          = { sh with vfd_state :=
                { sh.vfd_state with
                  at_speed :=
                    match encoder with
                    | none => sh.vfd_state.at_speed
                    | some rpm => at_speed_test tol rpm sh.spindle_data.rpm_low_limit
                        sh.spindle_data.rpm_high_limit } }
      ∧ (encoder = none →
          (Huanyang.spindleGetState modbus tol sh encoder result).1 = sh
          ∧ (Huanyang.spindleGetState modbus tol sh encoder result).2.2 = sh.vfd_state)) := by
  refine ⟨⟨⟨_, rfl, rfl⟩, rfl, ?_, ?_⟩, ⟨⟨_, rfl, rfl⟩, rfl, ?_, ?_⟩, ⟨?_, rfl, ?_, ?_⟩⟩
  · cases encoder <;> rfl
  · intro h; subst h; exact ⟨rfl, rfl⟩
  · cases encoder <;> rfl
  · intro h; subst h; exact ⟨rfl, rfl⟩
  · by_cases hv : modbus.vfd_type = HUANYANG2
    · simp only [ Huanyang.spindleGetState, hv, if_true]
      exact ⟨_, rfl, rfl⟩
    · simp only [ Huanyang.spindleGetState, hv, if_false]
      exact ⟨_, rfl, rfl⟩
  · cases encoder <;> rfl
  · intro h; subst h; exact ⟨rfl, rfl⟩

/-- Witness for C16: without an encoder the generic adapter returns its initial state. -/
theorem get_state_query_witness :
    (MODVFD.modvfd_spindleGetState cfg_unit 0 MODVFD.init none false).1 = MODVFD.init
    ∧ (MODVFD.modvfd_spindleGetState cfg_unit 0 MODVFD.init none false).2.2
        = MODVFD.init.vfd_state :=
  (get_state_query cfg_unit modbus_v2 0 MODVFD.init YL620.init Huanyang.init none false).1.2.2.2
    rfl

/-- Counterexample to C16 as stated: with an external encoder installed (reading 100 RPM) and
tolerance 0, `get_state` on the initial state, whose `at_speed` is false, sets `at_speed` and
returns the updated state, in each adapter. -/
theorem get_state_with_encoder :
    MODVFD.init.vfd_state.at_speed = false
    ∧ (MODVFD.modvfd_spindleGetState cfg_unit 0 MODVFD.init (some 100) false).2.2.at_speed = true
    ∧ (MODVFD.modvfd_spindleGetState cfg_unit 0 MODVFD.init (some 100) false).1 ≠ MODVFD.init
    ∧ (YL620.spindleGetState 0 YL620.init (some 100) false).2.2.at_speed = true
    ∧ (YL620.spindleGetState 0 YL620.init (some 100) false).1 ≠ YL620.init
    ∧ (Huanyang.spindleGetState modbus_v2 0 Huanyang.init (some 100) false).2.2.at_speed = true
    ∧ (Huanyang.spindleGetState modbus_v2 0 Huanyang.init (some 100) false).1 ≠ Huanyang.init := by
  refine ⟨rfl, ?_, ?_, ?_, ?_, ?_, ?_⟩ <;> decide

/-! ## C17: a successful response resets the retry counter -/

/-- C17: generic and YL620 adapters: for every response without the exception bit and every
context tag, the response handler leaves the retry counter at 0. -/
theorem rx_packet_resets_counter (cfg : vfd_settings_t) (modbus : modbus_settings_t) (tol : ℚ)
    (sm : MODVFD.State) (sy : YL620.State) (msg : rx_message)
    (hok : msg.byte 0 &&& 0x80 = 0) :
    (MODVFD.rx_packet cfg tol sm msg).retry_counter = 0
    ∧ (YL620.rx_packet modbus tol sy msg).retry_counter = 0 := by
  refine ⟨?_, ?_⟩
  · simp only [ MODVFD.rx_packet, hok, if_true]
    split_ifs <;> rfl
  · simp only [ YL620.rx_packet, hok, if_true]
    split_ifs <;> rfl

/-- Witness for C17: an acknowledgement of a speed write arriving at counter 7. -/
theorem rx_packet_resets_counter_witness :
    (({ context := VFD_SetRPM, adu := [1, 6, 32, 1, 3, 232] } : rx_message).byte 0 &&& 0x80 = 0)
    ∧ (MODVFD.rx_packet cfg_unit 0 { MODVFD.init with retry_counter := 7 }
          { context := VFD_SetRPM, adu := [1, 6, 32, 1, 3, 232] }).retry_counter = 0 :=
  ⟨by decide,
   (rx_packet_resets_counter cfg_unit modbus_v1 0 { MODVFD.init with retry_counter := 7 }
      YL620.init { context := VFD_SetRPM, adu := [1, 6, 32, 1, 3, 232] } (by decide)).1⟩

/-! ## C18: responses with the exception bit are ignored -/

/-- C18: in each adapter, for every response whose leading byte has the exception bit set and
every context tag, the response handler leaves the whole adapter state unchanged. -/
theorem rx_packet_ignores_exception (cfg : vfd_settings_t) (modbus : modbus_settings_t) (tol : ℚ)
    (sm : MODVFD.State) (sy : YL620.State) (sh : Huanyang.State) (msg : rx_message)
    (hex : msg.byte 0 &&& 0x80 ≠ 0) :
    MODVFD.rx_packet cfg tol sm msg = sm
    ∧ YL620.rx_packet modbus tol sy msg = sy
    ∧ Huanyang.rx_packet modbus tol sh msg = sh := by
  refine ⟨?_, ?_, ?_⟩
  · simp only [ MODVFD.rx_packet, hex, if_false]
  · simp only [ YL620.rx_packet, hex, if_false]
  · simp only [ Huanyang.rx_packet, hex, if_false]

/-- Witness for C18: an exception response (`0x81`) to a speed query. -/
theorem rx_packet_ignores_exception_witness :
    (({ context := VFD_GetRPM, adu := [0x81, 3, 2, 3, 232, 0] } : rx_message).byte 0 &&& 0x80 ≠ 0)
    ∧ Huanyang.rx_packet modbus_v2 0 huanyang_learned
        { context := VFD_GetRPM, adu := [0x81, 3, 2, 3, 232, 0] } = huanyang_learned :=
  ⟨by decide,
   (rx_packet_ignores_exception cfg_unit modbus_v2 0 MODVFD.init YL620.init huanyang_learned
      { context := VFD_GetRPM, adu := [0x81, 3, 2, 3, 232, 0] } (by decide)).2.2⟩

/-! ## C19: Huanyang fault handling -/

/-- C19 (as amended): Huanyang adapter, outside cold start: every communication fault,
whatever its code and context and however many faults preceded it, raises the spindle alarm
at once; the transport is not reset, nothing is re-issued and the adapter state is unchanged
(the adapter keeps no retry counter). -/
theorem huanyang_fault_alarms (s : Huanyang.State) (code context : Nat) :
    Huanyang.rx_exception false s code context = (s, [Event.system_raise_alarm]) :=
  rfl

/-- Counterexample to C19 as stated: the first fault on a speed write, with no fault before
it, raises the alarm and neither resets the transport nor re-issues anything. -/
theorem huanyang_first_fault_alarms :
    VFD_SetRPM ≠ 0
    ∧ Event.system_raise_alarm ∈ (Huanyang.rx_exception false Huanyang.init 4 VFD_SetRPM).2
    ∧ Event.modbus_reset ∉ (Huanyang.rx_exception false Huanyang.init 4 VFD_SetRPM).2
    ∧ (Huanyang.rx_exception false Huanyang.init 4 VFD_SetRPM).2 ≠ recovery VFD_SetRPM := by
  refine ⟨?_, ?_, ?_, ?_⟩ <;> decide

/-! ## C20: selecting and deselecting the adapter -/

theorem select_install (get_max : List Event)
    (on_spindle_select : Option (Nat → hal_t → hal_t × Bool)) (ppr : Nat) (hal : hal_t)
    (hch : ∀ f, on_spindle_select = some f → ∀ i h, f i h = (h, false))
    (hown : hal.spindle.set_state ≠ fn_ptr.adapter) :
    (spindle_select get_max on_spindle_select true ppr select_statics.init hal 1).statics
        = { init_ok := true, vfd_active := true, driver_cap := hal.driver_cap,
            spindle_org := hal.spindle }
    ∧ (spindle_select get_max on_spindle_select true ppr select_statics.init hal 1).ret = true
    ∧ (spindle_select get_max on_spindle_select true ppr select_statics.init hal 1).hal.driver_cap
        = { hal.driver_cap with
            variable_spindle := true, spindle_at_speed := true, spindle_dir := true }
    ∧ (spindle_select get_max on_spindle_select true ppr select_statics.init hal 1).hal.spindle
        = { hal.spindle with
            set_state := fn_ptr.adapter, get_state := fn_ptr.adapter,
            update_rpm := fn_ptr.adapter, reset_data := fn_ptr.null,
            get_data := if ppr = 0 then fn_ptr.adapter else hal.spindle.get_data } := by
  cases on_spindle_select with
  | none =>
    by_cases hp : ppr = 0 <;>
      simp [spindle_select, select_statics.init, hown, hp]
  | some f =>
    have hf := hch f rfl
    by_cases hp : ppr = 0 <;>
      simp [spindle_select, select_statics.init, hown, hp, hf]

theorem select_leave (get_max : List Event)
    (on_spindle_select : Option (Nat → hal_t → hal_t × Bool)) (isup : Bool) (ppr : Nat)
    (st : select_statics) (hal : hal_t) (id : Nat)
    (hch : ∀ f, on_spindle_select = some f → ∀ i h, f i h = (h, false))
    (hact : st.vfd_active = true) (horg : st.spindle_org.set_state ≠ fn_ptr.null)
    (hid : id ≠ 1) :
    (spindle_select get_max on_spindle_select isup ppr st hal id).hal
        = { driver_cap := st.driver_cap, spindle := st.spindle_org }
    ∧ (spindle_select get_max on_spindle_select isup ppr st hal id).events
        = [Event.gc_spindle_off]
    ∧ (spindle_select get_max on_spindle_select isup ppr st hal id).statics.vfd_active = false := by
  cases on_spindle_select with
  | none =>
    cases isup <;>
      simp [spindle_select, hact, hid, horg]
  | some f =>
    have hf := hch f rfl
    cases isup <;>
      simp [spindle_select, hact, hid, horg, hf]

/-- C20: YL620 and Huanyang `spindle_select`: from the initial statics with the transport up, a
chained handler that is absent or claims no id and leaves `hal` alone, and a host spindle
operation set whose `set_state` is neither `NULL` nor the adapter's: selecting id 1 installs
the adapter's `set_state`, `get_state` and `update_rpm` and switches the variable-speed,
at-speed and direction capabilities on; selecting any other id afterwards leaves the host's
operation set and capability flags equal to what they were before the first select. -/
theorem select_round_trip (modbus : modbus_settings_t) (result1 result2 : Bool)
    (on_spindle_select : Option (Nat → hal_t → hal_t × Bool)) (isup2 : Bool) (ppr : Nat)
    (hal : hal_t) (id : Nat)
    (hch : ∀ f, on_spindle_select = some f → ∀ i h, f i h = (h, false))
    (hnull : hal.spindle.set_state ≠ fn_ptr.null)
    (hown : hal.spindle.set_state ≠ fn_ptr.adapter) (hid : id ≠ 1) :
    ((YL620.yl620_spindle_select on_spindle_select true ppr select_statics.init hal 1).ret = true
      ∧ (YL620.yl620_spindle_select on_spindle_select true ppr select_statics.init hal
            1).hal.spindle.set_state = fn_ptr.adapter
      ∧ (YL620.yl620_spindle_select on_spindle_select true ppr select_statics.init hal
            1).hal.spindle.get_state = fn_ptr.adapter
      ∧ (YL620.yl620_spindle_select on_spindle_select true ppr select_statics.init hal
            1).hal.spindle.update_rpm = fn_ptr.adapter
      ∧ (YL620.yl620_spindle_select on_spindle_select true ppr select_statics.init hal
            1).hal.driver_cap.variable_spindle = true
      ∧ (YL620.yl620_spindle_select on_spindle_select true ppr select_statics.init hal
            1).hal.driver_cap.spindle_dir = true
      ∧ (YL620.yl620_spindle_select on_spindle_select true ppr select_statics.init hal
            1).hal.driver_cap.spindle_at_speed = true
      ∧ (YL620.yl620_spindle_select on_spindle_select isup2 ppr
          (YL620.yl620_spindle_select on_spindle_select true ppr select_statics.init hal
            1).statics
          (YL620.yl620_spindle_select on_spindle_select true ppr select_statics.init hal 1).hal
          id).hal = hal)
    ∧ ((Huanyang.huanyang_spindle_select modbus result1 on_spindle_select true ppr
          select_statics.init hal 1).ret = true
      ∧ (Huanyang.huanyang_spindle_select modbus result1 on_spindle_select true ppr
          select_statics.init hal 1).hal.spindle.set_state = fn_ptr.adapter
      ∧ (Huanyang.huanyang_spindle_select modbus result1 on_spindle_select true ppr
          select_statics.init hal 1).hal.spindle.get_state = fn_ptr.adapter
      ∧ (Huanyang.huanyang_spindle_select modbus result1 on_spindle_select true ppr
          select_statics.init hal 1).hal.spindle.update_rpm = fn_ptr.adapter
      ∧ (Huanyang.huanyang_spindle_select modbus result1 on_spindle_select true ppr
          select_statics.init hal 1).hal.driver_cap.variable_spindle = true
      ∧ (Huanyang.huanyang_spindle_select modbus result1 on_spindle_select true ppr
          select_statics.init hal 1).hal.driver_cap.spindle_dir = true
      ∧ (Huanyang.huanyang_spindle_select modbus result1 on_spindle_select true ppr
          select_statics.init hal 1).hal.driver_cap.spindle_at_speed = true
      ∧ (Huanyang.huanyang_spindle_select modbus result2 on_spindle_select isup2 ppr
          (Huanyang.huanyang_spindle_select modbus result1 on_spindle_select true ppr
            select_statics.init hal 1).statics
          (Huanyang.huanyang_spindle_select modbus result1 on_spindle_select true ppr
            select_statics.init hal 1).hal
          id).hal = hal) := by
  have key : ∀ (g1 g2 : List Event),
      (spindle_select g1 on_spindle_select true ppr select_statics.init hal 1).ret = true
      ∧ (spindle_select g1 on_spindle_select true ppr select_statics.init hal
            1).hal.spindle.set_state = fn_ptr.adapter
      ∧ (spindle_select g1 on_spindle_select true ppr select_statics.init hal
            1).hal.spindle.get_state = fn_ptr.adapter
      ∧ (spindle_select g1 on_spindle_select true ppr select_statics.init hal
            1).hal.spindle.update_rpm = fn_ptr.adapter
      ∧ (spindle_select g1 on_spindle_select true ppr select_statics.init hal
            1).hal.driver_cap.variable_spindle = true
      ∧ (spindle_select g1 on_spindle_select true ppr select_statics.init hal
            1).hal.driver_cap.spindle_dir = true
      ∧ (spindle_select g1 on_spindle_select true ppr select_statics.init hal
            1).hal.driver_cap.spindle_at_speed = true
      ∧ (spindle_select g2 on_spindle_select isup2 ppr
          (spindle_select g1 on_spindle_select true ppr select_statics.init hal 1).statics
          (spindle_select g1 on_spindle_select true ppr select_statics.init hal 1).hal
          id).hal = hal := by
    intro g1 g2
    obtain ⟨hst, hret, hcap, hsp⟩ := select_install g1 on_spindle_select ppr hal hch hown
    refine ⟨hret, by rw [hsp], by rw [hsp], by rw [hsp], by rw [hcap], by rw [hcap],
      by rw [hcap], ?_⟩
    have hl := (select_leave g2 on_spindle_select isup2 ppr
      (spindle_select g1 on_spindle_select true ppr select_statics.init hal 1).statics
      (spindle_select g1 on_spindle_select true ppr select_statics.init hal 1).hal id hch
      (by rw [hst]) (by rw [hst]; exact hnull) hid).1
    rw [hl, hst]
  exact ⟨key _ _, key _ _⟩

/-- Witness for C20: a host driving a PWM spindle, no chained handler, then a select of id 0. -/
theorem select_round_trip_witness :
    hal_pwm.spindle.set_state ≠ fn_ptr.null ∧ hal_pwm.spindle.set_state ≠ fn_ptr.adapter
    ∧ (0 : Nat) ≠ 1
    ∧ (Huanyang.huanyang_spindle_select modbus_v2 true none true 0
          (Huanyang.huanyang_spindle_select modbus_v2 true none true 0
            select_statics.init hal_pwm 1).statics
          (Huanyang.huanyang_spindle_select modbus_v2 true none true 0
            select_statics.init hal_pwm 1).hal
          0).hal = hal_pwm :=
  ⟨by decide, by decide, by decide,
   (select_round_trip modbus_v2 true true none true 0 hal_pwm 0
      (fun f hf => by cases hf) (by decide) (by decide) (by decide)).2.2.2.2.2.2.2.2⟩

/-! ## C21: a failed run/stop send -/

/-- C21: in each adapter, if the blocking send of the run/stop frame reports failure,
`set_state(state, rpm)` sends that one frame and no speed-write frame, leaves the telemetry
(limits included) and `at_speed` unchanged, and has the tracked `on` and `ccw` updated to the
requested state. -/
theorem set_state_send_failed (cfg : vfd_settings_t) (modbus : modbus_settings_t) (tol : ℚ)
    (sm : MODVFD.State) (sy : YL620.State) (sh : Huanyang.State) (state : spindle_state_t)
    (rpm : ℚ) (sent_rpm : Bool) :
    (∃ s1 f, MODVFD.modvfd_spindleSetState cfg tol sm state rpm false sent_rpm
          = some (s1, [Event.modbus_send f true false])
        ∧ f.context = VFD_SetStatus
        ∧ s1.spindle_data = sm.spindle_data ∧ s1.vfd_state.at_speed = sm.vfd_state.at_speed
        ∧ s1.vfd_state.is_on = state.is_on ∧ s1.vfd_state.ccw = state.ccw)
    ∧ (∃ s1 f, YL620.spindleSetState modbus tol sy state rpm false sent_rpm
          = some (s1, [Event.modbus_send f true false])
        ∧ f.context = VFD_SetStatus
        ∧ s1.spindle_data = sy.spindle_data ∧ s1.vfd_state.at_speed = sy.vfd_state.at_speed
        ∧ s1.vfd_state.is_on = state.is_on ∧ s1.vfd_state.ccw = state.ccw)
    ∧ (∃ s1 f, Huanyang.spindleSetState modbus tol sh state rpm false sent_rpm
          = some (s1, [Event.modbus_send f true false])
        ∧ f.context = VFD_SetStatus
        ∧ s1.spindle_data = sh.spindle_data ∧ s1.vfd_state.at_speed = sh.vfd_state.at_speed
        ∧ s1.vfd_state.is_on = state.is_on ∧ s1.vfd_state.ccw = state.ccw) := by
  refine ⟨?_, ?_, ?_⟩
  · simp only [ MODVFD.modvfd_spindleSetState, Bool.false_eq_true, if_false]
    refine ⟨_, _, rfl, rfl, ?_, ?_, rfl, rfl⟩ <;> split <;> rfl
  · simp only [ YL620.spindleSetState, Bool.false_eq_true, if_false]
    refine ⟨_, _, rfl, rfl, ?_, ?_, rfl, rfl⟩ <;> split <;> rfl
  · simp only [ Huanyang.spindleSetState, Bool.false_eq_true, if_false]
    refine ⟨_, _, rfl, huanyang_mode_cmd_context modbus state rpm, ?_, ?_, rfl, rfl⟩ <;>
      split <;> rfl

/-! ## C22: Huanyang, the last-programmed RPM after a failed speed write -/

/-- C22 (as amended): Huanyang adapter, for every RPM `r`: whenever set-speed issues the
speed-write frame for `r`, the last-programmed RPM becomes `r` whether the send succeeded or
failed, and a following set-speed request for the same `r` issues no frame and changes
nothing. -/
theorem huanyang_programmed_regardless (modbus : modbus_settings_t) (tol : ℚ)
    (s : Huanyang.State) (r : ℚ) (block result block2 result2 : Bool) (s1 : Huanyang.State)
    (evs : List Event)
    (h : Huanyang.spindleSetRPM modbus tol s r block result = some (s1, evs)) :
    s1.rpm_programmed = r
    ∧ Huanyang.spindleSetRPM modbus tol s1 r block2 result2 = some (s1, []) := by
  obtain ⟨hp, -, -, -⟩ := huanyang_set_rpm_cases modbus tol s r block result s1 evs h
  refine ⟨hp, ?_⟩
  simp only [ Huanyang.spindleSetRPM, hp, ne_eq, not_true_eq_false, if_false]

/-- Witness for C22: a failed speed write of 1000 RPM on a v2 drive. -/
theorem huanyang_programmed_regardless_witness :
    ∃ s1, Huanyang.spindleSetRPM modbus_v2 0 huanyang_learned 1000 true false
        = some (s1, [Event.modbus_send v2_speed_1000 true false])
      ∧ s1.rpm_programmed = 1000
      ∧ Huanyang.spindleSetRPM modbus_v2 0 s1 1000 true true = some (s1, []) := by
  have h : ∃ s1, Huanyang.spindleSetRPM modbus_v2 0 huanyang_learned 1000 true false
      = some (s1, [Event.modbus_send v2_speed_1000 true false]) := ⟨_, rfl⟩
  obtain ⟨s1, h1⟩ := h
  exact ⟨s1, h1,
    huanyang_programmed_regardless modbus_v2 0 huanyang_learned 1000 true false true true s1 _ h1⟩

/-- Counterexample to C22 as stated: after the send of the speed-write frame for 1000 RPM
failed, the following set-speed request for 1000 RPM is suppressed: it issues no frame. -/
theorem huanyang_failed_write_suppresses :
    (twice (fun s => Huanyang.spindleSetRPM modbus_v2 0 s 1000 true false) huanyang_learned)
      = some ([Event.modbus_send v2_speed_1000 true false], []) := by
  decide

/-! ## C23: the retry counter stays below the maximum -/

theorem modvfd_set_rpm_counter (cfg : vfd_settings_t) (tol : ℚ) (s : MODVFD.State) (rpm : ℚ)
    (block result : Bool) (s1 : MODVFD.State) (evs : List Event)
    (h : MODVFD.spindleSetRPM cfg tol s rpm block result = some (s1, evs)) :
    s1.retry_counter = s.retry_counter := by
  unfold MODVFD.spindleSetRPM at h
  split at h
  · exact absurd h (by simp)
  · simp only [Option.some.injEq, Prod.mk.injEq] at h
    rw [← h.1]
    split <;> rfl

theorem modvfd_set_state_counter (cfg : vfd_settings_t) (tol : ℚ) (s : MODVFD.State)
    (state : spindle_state_t) (rpm : ℚ) (sent_mode sent_rpm : Bool) (s1 : MODVFD.State)
    (evs : List Event)
    (h : MODVFD.modvfd_spindleSetState cfg tol s state rpm sent_mode sent_rpm = some (s1, evs)) :
    s1.retry_counter = s.retry_counter := by
  simp only [ MODVFD.modvfd_spindleSetState] at h
  split at h
  · split at h
    · exact absurd h (by simp)
    · rename_i s3 evs3 heq
      simp only [Option.some.injEq, Prod.mk.injEq] at h
      rw [← h.1, modvfd_set_rpm_counter _ _ _ _ _ _ _ _ heq]
      split <;> rfl
  · simp only [Option.some.injEq, Prod.mk.injEq] at h
    rw [← h.1]
    split <;> rfl

theorem yl620_set_rpm_counter (modbus : modbus_settings_t) (tol : ℚ) (s : YL620.State) (rpm : ℚ)
    (block result : Bool) (s1 : YL620.State) (evs : List Event)
    (h : YL620.spindleSetRPM modbus tol s rpm block result = some (s1, evs)) :
    s1.retry_counter = s.retry_counter := by
  unfold YL620.spindleSetRPM at h
  split at h
  · exact absurd h (by simp)
  · simp only [Option.some.injEq, Prod.mk.injEq] at h
    rw [← h.1]
    split <;> rfl

theorem yl620_set_state_counter (modbus : modbus_settings_t) (tol : ℚ) (s : YL620.State)
    (state : spindle_state_t) (rpm : ℚ) (sent_mode sent_rpm : Bool) (s1 : YL620.State)
    (evs : List Event)
    (h : YL620.spindleSetState modbus tol s state rpm sent_mode sent_rpm = some (s1, evs)) :
    s1.retry_counter = s.retry_counter := by
  simp only [ YL620.spindleSetState] at h
  split at h
  · split at h
    · exact absurd h (by simp)
    · rename_i s3 evs3 heq
      simp only [Option.some.injEq, Prod.mk.injEq] at h
      rw [← h.1, yl620_set_rpm_counter _ _ _ _ _ _ _ _ heq]
      split <;> rfl
  · simp only [Option.some.injEq, Prod.mk.injEq] at h
    rw [← h.1]
    split <;> rfl

theorem modvfd_rx_exception_counter (N : Nat) (hN : 1 ≤ N) (cold : Bool) (s : MODVFD.State)
    (code context : Nat) (h : s.retry_counter < N) :
    (MODVFD.rx_exception N cold s code context).1.retry_counter < N := by
  unfold MODVFD.rx_exception
  cases cold
  · simp only [Bool.false_eq_true, if_false]
    by_cases hp : context > 0
    · simp only [hp, if_true]
      by_cases hg : (s.retry_counter + 1) % 65536 ≥ N
      · simp only [hg, if_true]
        omega
      · simp only [hg, if_false]
        split_ifs <;> (dsimp only; omega)
    · simp only [hp, if_false]
      omega
  · simp only [if_true]
    exact h

theorem yl620_rx_exception_counter (N : Nat) (hN : 1 ≤ N) (cold : Bool) (s : YL620.State)
    (code context : Nat) (h : s.retry_counter < N) :
    (YL620.rx_exception N cold s code context).1.retry_counter < N := by
  unfold YL620.rx_exception
  cases cold
  · simp only [Bool.false_eq_true, if_false]
    by_cases hp : context > 0
    · simp only [hp, if_true]
      by_cases hg : (s.retry_counter + 1) % 65536 ≥ N
      · simp only [hg, if_true]
        omega
      · simp only [hg, if_false]
        split_ifs <;> (dsimp only; omega)
    · simp only [hp, if_false]
      omega
  · simp only [if_true]
    exact h

theorem modvfd_rx_packet_counter (cfg : vfd_settings_t) (tol : ℚ) (N : Nat) (hN : 1 ≤ N)
    (s : MODVFD.State) (msg : rx_message) (h : s.retry_counter < N) :
    (MODVFD.rx_packet cfg tol s msg).retry_counter < N := by
  unfold MODVFD.rx_packet
  split_ifs <;> first | exact h | (show 0 < N; omega)

theorem yl620_rx_packet_counter (modbus : modbus_settings_t) (tol : ℚ) (N : Nat) (hN : 1 ≤ N)
    (s : YL620.State) (msg : rx_message) (h : s.retry_counter < N) :
    (YL620.rx_packet modbus tol s msg).retry_counter < N := by
  unfold YL620.rx_packet
  split_ifs <;> first | exact h | (show 0 < N; omega)

theorem modvfd_get_state_counter (cfg : vfd_settings_t) (tol : ℚ) (s : MODVFD.State)
    (encoder : Option ℚ) (result : Bool) :
    (MODVFD.modvfd_spindleGetState cfg tol s encoder result).1.retry_counter
      = s.retry_counter := by
  cases encoder <;> rfl

theorem yl620_get_state_counter (tol : ℚ) (s : YL620.State) (encoder : Option ℚ)
    (result : Bool) :
    (YL620.spindleGetState tol s encoder result).1.retry_counter = s.retry_counter := by
  cases encoder <;> rfl

/-- C23: generic and YL620 adapters, with `VFD_RETRIES = N >= 1`: `retry_counter < N` holds in
the initial state and, when it holds before, it holds after `set_state`, `update_rpm`,
`get_state`, the response handler and the fault handler (in and out of cold start). -/
theorem retry_counter_below_max (N : Nat) (hN : 1 ≤ N) (cfg : vfd_settings_t)
    (modbus : modbus_settings_t) (tol : ℚ) (sm : MODVFD.State) (sy : YL620.State)
    (hm : sm.retry_counter < N) (hy : sy.retry_counter < N) :
    (MODVFD.init.retry_counter < N
      ∧ (∀ state rpm sent_mode sent_rpm s1 evs,
          MODVFD.modvfd_spindleSetState cfg tol sm state rpm sent_mode sent_rpm = some (s1, evs) →
          s1.retry_counter < N)
      ∧ (∀ rpm result s1 evs,
          MODVFD.modvfd_spindleUpdateRPM cfg tol sm rpm result = some (s1, evs) →
          s1.retry_counter < N)
      ∧ (∀ encoder result,
          (MODVFD.modvfd_spindleGetState cfg tol sm encoder result).1.retry_counter < N)
      ∧ (∀ msg, (MODVFD.rx_packet cfg tol sm msg).retry_counter < N)
      ∧ (∀ cold code context,
          (MODVFD.rx_exception N cold sm code context).1.retry_counter < N))
    ∧ (YL620.init.retry_counter < N
      ∧ (∀ state rpm sent_mode sent_rpm s1 evs,
          YL620.spindleSetState modbus tol sy state rpm sent_mode sent_rpm = some (s1, evs) →
          s1.retry_counter < N)
      ∧ (∀ rpm result s1 evs,
          YL620.spindleUpdateRPM modbus tol sy rpm result = some (s1, evs) →
          s1.retry_counter < N)
      ∧ (∀ encoder result, (YL620.spindleGetState tol sy encoder result).1.retry_counter < N)
      ∧ (∀ msg, (YL620.rx_packet modbus tol sy msg).retry_counter < N)
      ∧ (∀ cold code context,
          (YL620.rx_exception N cold sy code context).1.retry_counter < N)) := by
  refine ⟨⟨?_, ?_, ?_, ?_, ?_, ?_⟩, ⟨?_, ?_, ?_, ?_, ?_, ?_⟩⟩
  · show 0 < N
    omega
  · intro state rpm sent_mode sent_rpm s1 evs h
    rw [modvfd_set_state_counter _ _ _ _ _ _ _ _ _ h]
    exact hm
  · intro rpm result s1 evs h
    rw [modvfd_set_rpm_counter _ _ _ _ _ _ _ _ h]
    exact hm
  · intro encoder result
    rw [modvfd_get_state_counter]
    exact hm
  · intro msg
    exact modvfd_rx_packet_counter cfg tol N hN sm msg hm
  · intro cold code context
    exact modvfd_rx_exception_counter N hN cold sm code context hm
  · show 0 < N
    omega
  · intro state rpm sent_mode sent_rpm s1 evs h
    rw [yl620_set_state_counter _ _ _ _ _ _ _ _ _ h]
    exact hy
  · intro rpm result s1 evs h
    rw [yl620_set_rpm_counter _ _ _ _ _ _ _ _ h]
    exact hy
  · intro encoder result
    rw [yl620_get_state_counter]
    exact hy
  · intro msg
    exact yl620_rx_packet_counter modbus tol N hN sy msg hy
  · intro cold code context
    exact yl620_rx_exception_counter N hN cold sy code context hy

/-- Witness for C23: with a maximum of 3 and the counter at 2, a further failed speed query
outside cold start leaves the counter at 0. -/
theorem retry_counter_below_max_witness :
    1 ≤ 3 ∧ ({ MODVFD.init with retry_counter := 2 } : MODVFD.State).retry_counter < 3
    ∧ (MODVFD.rx_exception 3 false { MODVFD.init with retry_counter := 2 } 4
          VFD_GetRPM).1.retry_counter < 3
    ∧ (MODVFD.rx_exception 3 false { MODVFD.init with retry_counter := 2 } 4
          VFD_GetRPM).1.retry_counter = 0 :=
  ⟨by decide, by decide,
   (retry_counter_below_max 3 (by decide) cfg_unit modbus_v1 0
      { MODVFD.init with retry_counter := 2 } YL620.init (by decide) (by decide)).1.2.2.2.2.2
      false 4 VFD_GetRPM,
   by decide⟩

/-! ## C24: the at-speed invariant -/

theorem inv_of_false (tol : ℚ) (st : spindle_state_t) (d : spindle_data_t)
    (h : st.at_speed = false) : at_speed_inv tol st d := by
  intro ht
  rw [h] at ht
  exact absurd ht (by decide)

theorem inv_of_same (tol : ℚ) (st st1 : spindle_state_t) (d d1 : spindle_data_t)
    (h : at_speed_inv tol st d) (ha : st1.at_speed = st.at_speed) (hd : d1 = d) :
    at_speed_inv tol st1 d1 := by
  intro ht
  rw [hd]
  exact h (by rw [← ha]; exact ht)

theorem inv_of_cases (tol : ℚ) (st st1 : spindle_state_t) (d d1 : spindle_data_t)
    (h : at_speed_inv tol st d)
    (hc : st1.at_speed = false ∨ (st1.at_speed = st.at_speed ∧ d1 = d)) :
    at_speed_inv tol st1 d1 := by
  rcases hc with hf | ⟨ha, hd⟩
  · exact inv_of_false tol st1 d1 hf
  · exact inv_of_same tol st st1 d d1 h ha hd

theorem modvfd_set_rpm_at_speed (cfg : vfd_settings_t) (tol : ℚ) (s : MODVFD.State) (rpm : ℚ)
    (block result : Bool) (s1 : MODVFD.State) (evs : List Event)
    (h : MODVFD.spindleSetRPM cfg tol s rpm block result = some (s1, evs)) :
    s1.vfd_state.at_speed = false := by
  unfold MODVFD.spindleSetRPM at h
  split at h
  · exact absurd h (by simp)
  · simp only [Option.some.injEq, Prod.mk.injEq] at h
    rw [← h.1]
    split <;> rfl

theorem modvfd_set_state_at_speed (cfg : vfd_settings_t) (tol : ℚ) (s : MODVFD.State)
    (state : spindle_state_t) (rpm : ℚ) (sent_mode sent_rpm : Bool) (s1 : MODVFD.State)
    (evs : List Event)
    (h : MODVFD.modvfd_spindleSetState cfg tol s state rpm sent_mode sent_rpm = some (s1, evs)) :
    s1.vfd_state.at_speed = false
      ∨ (s1.vfd_state.at_speed = s.vfd_state.at_speed ∧ s1.spindle_data = s.spindle_data) := by
  simp only [ MODVFD.modvfd_spindleSetState] at h
  split at h
  · split at h
    · exact absurd h (by simp)
    · rename_i s3 evs3 heq
      simp only [Option.some.injEq, Prod.mk.injEq] at h
      rw [← h.1]
      exact Or.inl (modvfd_set_rpm_at_speed _ _ _ _ _ _ _ _ heq)
  · simp only [Option.some.injEq, Prod.mk.injEq] at h
    rw [← h.1]
    refine Or.inr ⟨?_, ?_⟩ <;> split <;> rfl

theorem yl620_set_rpm_at_speed (modbus : modbus_settings_t) (tol : ℚ) (s : YL620.State) (rpm : ℚ)
    (block result : Bool) (s1 : YL620.State) (evs : List Event)
    (h : YL620.spindleSetRPM modbus tol s rpm block result = some (s1, evs)) :
    s1.vfd_state.at_speed = false := by
  unfold YL620.spindleSetRPM at h
  split at h
  · exact absurd h (by simp)
  · simp only [Option.some.injEq, Prod.mk.injEq] at h
    rw [← h.1]
    split <;> rfl

theorem yl620_set_state_at_speed (modbus : modbus_settings_t) (tol : ℚ) (s : YL620.State)
    (state : spindle_state_t) (rpm : ℚ) (sent_mode sent_rpm : Bool) (s1 : YL620.State)
    (evs : List Event)
    (h : YL620.spindleSetState modbus tol s state rpm sent_mode sent_rpm = some (s1, evs)) :
    s1.vfd_state.at_speed = false
      ∨ (s1.vfd_state.at_speed = s.vfd_state.at_speed ∧ s1.spindle_data = s.spindle_data) := by
  simp only [ YL620.spindleSetState] at h
  split at h
  · split at h
    · exact absurd h (by simp)
    · rename_i s3 evs3 heq
      simp only [Option.some.injEq, Prod.mk.injEq] at h
      rw [← h.1]
      exact Or.inl (yl620_set_rpm_at_speed _ _ _ _ _ _ _ _ heq)
  · simp only [Option.some.injEq, Prod.mk.injEq] at h
    rw [← h.1]
    refine Or.inr ⟨?_, ?_⟩ <;> split <;> rfl

theorem huanyang_set_rpm_at_speed (modbus : modbus_settings_t) (tol : ℚ) (s : Huanyang.State)
    (rpm : ℚ) (block result : Bool) (s1 : Huanyang.State) (evs : List Event)
    (h : Huanyang.spindleSetRPM modbus tol s rpm block result = some (s1, evs)) :
    s1.vfd_state.at_speed = false
      ∨ (s1.vfd_state.at_speed = s.vfd_state.at_speed ∧ s1.spindle_data = s.spindle_data) := by
  unfold Huanyang.spindleSetRPM at h
  split at h
  · split at h
    · exact absurd h (by simp)
    · simp only [Option.some.injEq, Prod.mk.injEq] at h
      rw [← h.1]
      left
      split <;> rfl
  · simp only [Option.some.injEq, Prod.mk.injEq] at h
    rw [← h.1]
    exact Or.inr ⟨rfl, rfl⟩

theorem huanyang_set_state_at_speed (modbus : modbus_settings_t) (tol : ℚ) (s : Huanyang.State)
    (state : spindle_state_t) (rpm : ℚ) (sent_mode sent_rpm : Bool) (s1 : Huanyang.State)
    (evs : List Event)
    (h : Huanyang.spindleSetState modbus tol s state rpm sent_mode sent_rpm = some (s1, evs)) :
    s1.vfd_state.at_speed = false
      ∨ (s1.vfd_state.at_speed = s.vfd_state.at_speed ∧ s1.spindle_data = s.spindle_data) := by
  simp only [ Huanyang.spindleSetState] at h
  split at h
  · split at h
    · exact absurd h (by simp)
    · rename_i s3 evs3 heq
      simp only [Option.some.injEq, Prod.mk.injEq] at h
      rw [← h.1]
      rcases huanyang_set_rpm_at_speed _ _ _ _ _ _ _ _ heq with hf | ⟨ha, hd⟩
      · exact Or.inl hf
      · refine Or.inr ⟨?_, ?_⟩
        · rw [ha]; split <;> rfl
        · rw [hd]; split <;> rfl
  · simp only [Option.some.injEq, Prod.mk.injEq] at h
    rw [← h.1]
    refine Or.inr ⟨?_, ?_⟩ <;> split <;> rfl

theorem modvfd_rx_packet_inv (cfg : vfd_settings_t) (tol : ℚ) (s : MODVFD.State)
    (msg : rx_message) (h : at_speed_inv tol s.vfd_state s.spindle_data) :
    at_speed_inv tol (MODVFD.rx_packet cfg tol s msg).vfd_state
      (MODVFD.rx_packet cfg tol s msg).spindle_data := by
  unfold MODVFD.rx_packet
  split_ifs
  · intro ht
    exact (at_speed_test_iff _ _ _ _).mp ht
  · exact h
  · exact h
  · exact h

theorem yl620_rx_packet_inv (modbus : modbus_settings_t) (tol : ℚ) (s : YL620.State)
    (msg : rx_message) (h : at_speed_inv tol s.vfd_state s.spindle_data) :
    at_speed_inv tol (YL620.rx_packet modbus tol s msg).vfd_state
      (YL620.rx_packet modbus tol s msg).spindle_data := by
  unfold YL620.rx_packet
  split_ifs
  · intro ht
    exact (at_speed_test_iff _ _ _ _).mp ht
  · exact h
  · exact h
  · exact h

theorem huanyang_rx_packet_inv (modbus : modbus_settings_t) (tol : ℚ) (s : Huanyang.State)
    (msg : rx_message) (h : at_speed_inv tol s.vfd_state s.spindle_data) :
    at_speed_inv tol (Huanyang.rx_packet modbus tol s msg).vfd_state
      (Huanyang.rx_packet modbus tol s msg).spindle_data := by
  unfold Huanyang.rx_packet
  split_ifs
  · intro ht
    exact (at_speed_test_iff _ _ _ _).mp ht
  · intro ht
    exact (at_speed_test_iff _ _ _ _).mp ht
  · exact h
  · exact h
  · exact h
  · exact h

theorem modvfd_rx_exception_inv (N : Nat) (cold : Bool) (tol : ℚ) (s : MODVFD.State)
    (code context : Nat) (h : at_speed_inv tol s.vfd_state s.spindle_data) :
    at_speed_inv tol (MODVFD.rx_exception N cold s code context).1.vfd_state
      (MODVFD.rx_exception N cold s code context).1.spindle_data := by
  unfold MODVFD.rx_exception
  dsimp only
  split_ifs <;> exact h

theorem yl620_rx_exception_inv (N : Nat) (cold : Bool) (tol : ℚ) (s : YL620.State)
    (code context : Nat) (h : at_speed_inv tol s.vfd_state s.spindle_data) :
    at_speed_inv tol (YL620.rx_exception N cold s code context).1.vfd_state
      (YL620.rx_exception N cold s code context).1.spindle_data := by
  unfold YL620.rx_exception
  dsimp only
  split_ifs <;> exact h

theorem huanyang_rx_exception_inv (cold : Bool) (tol : ℚ) (s : Huanyang.State)
    (code context : Nat) (h : at_speed_inv tol s.vfd_state s.spindle_data) :
    at_speed_inv tol (Huanyang.rx_exception cold s code context).1.vfd_state
      (Huanyang.rx_exception cold s code context).1.spindle_data := by
  unfold Huanyang.rx_exception
  split_ifs <;> exact h

/-- C24: in each adapter, with a fixed tolerance `t` and no external encoder data source:
the predicate "`at_speed` implies `t <= 0` or `rpm_low_limit <= rpm <= rpm_high_limit`" over the
stored telemetry holds in the initial state and, when it holds before, it holds after
`set_state`, `update_rpm`, `get_state`, the response handler and the fault handler. -/
theorem at_speed_invariant (N : Nat) (cfg : vfd_settings_t) (modbus : modbus_settings_t)
    (tol : ℚ) (sm : MODVFD.State) (sy : YL620.State) (sh : Huanyang.State)
    (hm : at_speed_inv tol sm.vfd_state sm.spindle_data)
    (hy : at_speed_inv tol sy.vfd_state sy.spindle_data)
    (hh : at_speed_inv tol sh.vfd_state sh.spindle_data) :
    (at_speed_inv tol MODVFD.init.vfd_state MODVFD.init.spindle_data
      ∧ (∀ state rpm sent_mode sent_rpm s1 evs,
          MODVFD.modvfd_spindleSetState cfg tol sm state rpm sent_mode sent_rpm = some (s1, evs) →
          at_speed_inv tol s1.vfd_state s1.spindle_data)
      ∧ (∀ rpm result s1 evs,
          MODVFD.modvfd_spindleUpdateRPM cfg tol sm rpm result = some (s1, evs) →
          at_speed_inv tol s1.vfd_state s1.spindle_data)
      ∧ (∀ result,
          at_speed_inv tol (MODVFD.modvfd_spindleGetState cfg tol sm none result).1.vfd_state
            (MODVFD.modvfd_spindleGetState cfg tol sm none result).1.spindle_data)
      ∧ (∀ msg, at_speed_inv tol (MODVFD.rx_packet cfg tol sm msg).vfd_state
          (MODVFD.rx_packet cfg tol sm msg).spindle_data)
      ∧ (∀ cold code context,
          at_speed_inv tol (MODVFD.rx_exception N cold sm code context).1.vfd_state
            (MODVFD.rx_exception N cold sm code context).1.spindle_data))
    ∧ (at_speed_inv tol YL620.init.vfd_state YL620.init.spindle_data
      ∧ (∀ state rpm sent_mode sent_rpm s1 evs,
          YL620.spindleSetState modbus tol sy state rpm sent_mode sent_rpm = some (s1, evs) →
          at_speed_inv tol s1.vfd_state s1.spindle_data)
      ∧ (∀ rpm result s1 evs,
          YL620.spindleUpdateRPM modbus tol sy rpm result = some (s1, evs) →
          at_speed_inv tol s1.vfd_state s1.spindle_data)
      ∧ (∀ result,
          at_speed_inv tol (YL620.spindleGetState tol sy none result).1.vfd_state
            (YL620.spindleGetState tol sy none result).1.spindle_data)
      ∧ (∀ msg, at_speed_inv tol (YL620.rx_packet modbus tol sy msg).vfd_state
          (YL620.rx_packet modbus tol sy msg).spindle_data)
      ∧ (∀ cold code context,
          at_speed_inv tol (YL620.rx_exception N cold sy code context).1.vfd_state
            (YL620.rx_exception N cold sy code context).1.spindle_data))
    ∧ (at_speed_inv tol Huanyang.init.vfd_state Huanyang.init.spindle_data
      ∧ (∀ state rpm sent_mode sent_rpm s1 evs,
          Huanyang.spindleSetState modbus tol sh state rpm sent_mode sent_rpm = some (s1, evs) →
          at_speed_inv tol s1.vfd_state s1.spindle_data)
      ∧ (∀ rpm result s1 evs,
          Huanyang.spindleUpdateRPM modbus tol sh rpm result = some (s1, evs) →
          at_speed_inv tol s1.vfd_state s1.spindle_data)
      ∧ (∀ result,
          at_speed_inv tol (Huanyang.spindleGetState modbus tol sh none result).1.vfd_state
            (Huanyang.spindleGetState modbus tol sh none result).1.spindle_data)
      ∧ (∀ msg, at_speed_inv tol (Huanyang.rx_packet modbus tol sh msg).vfd_state
          (Huanyang.rx_packet modbus tol sh msg).spindle_data)
      ∧ (∀ cold code context,
          at_speed_inv tol (Huanyang.rx_exception cold sh code context).1.vfd_state
            (Huanyang.rx_exception cold sh code context).1.spindle_data)) := by
  refine ⟨⟨?_, ?_, ?_, ?_, ?_, ?_⟩, ⟨?_, ?_, ?_, ?_, ?_, ?_⟩, ⟨?_, ?_, ?_, ?_, ?_, ?_⟩⟩
  · exact inv_of_false tol _ _ rfl
  · intro state rpm sent_mode sent_rpm s1 evs h
    exact inv_of_cases tol _ _ _ _ hm (modvfd_set_state_at_speed _ _ _ _ _ _ _ _ _ h)
  · intro rpm result s1 evs h
    exact inv_of_false tol _ _ (modvfd_set_rpm_at_speed _ _ _ _ _ _ _ _ h)
  · intro result
    exact hm
  · intro msg
    exact modvfd_rx_packet_inv cfg tol sm msg hm
  · intro cold code context
    exact modvfd_rx_exception_inv N cold tol sm code context hm
  · exact inv_of_false tol _ _ rfl
  · intro state rpm sent_mode sent_rpm s1 evs h
    exact inv_of_cases tol _ _ _ _ hy (yl620_set_state_at_speed _ _ _ _ _ _ _ _ _ h)
  · intro rpm result s1 evs h
    exact inv_of_false tol _ _ (yl620_set_rpm_at_speed _ _ _ _ _ _ _ _ h)
  · intro result
    exact hy
  · intro msg
    exact yl620_rx_packet_inv modbus tol sy msg hy
  · intro cold code context
    exact yl620_rx_exception_inv N cold tol sy code context hy
  · exact inv_of_false tol _ _ rfl
  · intro state rpm sent_mode sent_rpm s1 evs h
    exact inv_of_cases tol _ _ _ _ hh (huanyang_set_state_at_speed _ _ _ _ _ _ _ _ _ h)
  · intro rpm result s1 evs h
    exact inv_of_cases tol _ _ _ _ hh (huanyang_set_rpm_at_speed _ _ _ _ _ _ _ _ h)
  · intro result
    exact hh
  · intro msg
    exact huanyang_rx_packet_inv modbus tol sh msg hh
  · intro cold code context
    exact huanyang_rx_exception_inv cold tol sh code context hh

/-- Witness for C24: from the initial states, with tolerance 1, a generic speed response
carrying raw 1000 leaves the invariant in force. -/
theorem at_speed_invariant_witness :
    at_speed_inv 1 MODVFD.init.vfd_state MODVFD.init.spindle_data
    ∧ at_speed_inv 1
        (MODVFD.rx_packet cfg_unit 1 MODVFD.init
          { context := VFD_GetRPM, adu := [1, 3, 2, 3, 232] }).vfd_state
        (MODVFD.rx_packet cfg_unit 1 MODVFD.init
          { context := VFD_GetRPM, adu := [1, 3, 2, 3, 232] }).spindle_data :=
  ⟨inv_of_false 1 _ _ rfl,
   (at_speed_invariant 3 cfg_unit modbus_v2 1 MODVFD.init YL620.init Huanyang.init
      (inv_of_false 1 _ _ rfl) (inv_of_false 1 _ _ rfl) (inv_of_false 1 _ _ rfl)).1.2.2.2.2.1
      { context := VFD_GetRPM, adu := [1, 3, 2, 3, 232] }⟩

/-! ## C25: the v2 speed conversion before the maximum is learned -/

/-- C25, the code at the failing input: a v2 drive is selected with the transport up, the
blocking max-speed query sent by `spindleGetMaxRPM` fails, the fault is delivered (an alarm,
the adapter state unchanged, `rpm_max` still 0), and `set_state(on, clockwise, 1000)` then
performs the v2 speed conversion with `rpm_max = 0`: it has no result. -/
theorem huanyang_v2_divides_by_zero :
    (Huanyang.huanyang_spindle_select modbus_v2 false none true 0 select_statics.init hal_pwm
        1).events
      = [Event.gc_spindle_off,
         Event.modbus_send
          { context := VFD_GetMaxRPM
            crc_check := false
            adu := [some 0x01, some 0x03, some 0xB0, some 0x05, some 0x00, some 0x02]
            tx_length := 8
            rx_length := 8 } true false]
    ∧ Huanyang.rx_exception false Huanyang.init 4 VFD_GetMaxRPM
        = (Huanyang.init, [Event.system_raise_alarm])
    ∧ Huanyang.init.rpm_max = 0
    ∧ (1000 : ℚ) ≠ Huanyang.init.rpm_programmed
    ∧ Huanyang.rpm_cmd modbus_v2 Huanyang.init 1000 = none
    ∧ Huanyang.spindleSetState modbus_v2 0 Huanyang.init run_cw 1000 true true = none := by
  refine ⟨?_, rfl, rfl, ?_, ?_, ?_⟩ <;> decide

/-! ## C26: bytes of the Huanyang frames that are never assigned -/

/-- C26, the code at the failing inputs: the v2 run/stop frame goes out with `adu[3]` and
`adu[4]` never assigned, the v2 speed-write frame with `adu[3]` never assigned, and the v1
speed query with `adu[4]` and `adu[5]` never assigned; the v1 run/stop frame, the v1
speed-write frame and the v2 speed query have every transmitted byte assigned. -/
theorem huanyang_unassigned_bytes (state : spindle_state_t) (rpm : ℚ) (s : Huanyang.State)
    (tol : ℚ) (encoder : Option ℚ) (result : Bool) :
    (transmitted (Huanyang.mode_cmd modbus_v2 state rpm)).take 5
        = [some 0x01, some 0x06, some 0x20, none, none]
    ∧ determined (Huanyang.mode_cmd modbus_v2 state rpm) = false
    ∧ Huanyang.rpm_cmd modbus_v2 huanyang_learned 1000 = some v2_speed_1000
    ∧ transmitted v2_speed_1000
        = [some 0x01, some 0x06, some 0x10, none, some 0x01, some 0xA0]
    ∧ determined v2_speed_1000 = false
    ∧ (Huanyang.spindleGetState modbus_v1 tol s encoder result).2.1
        = [Event.modbus_send v1_speed_query false result]
    ∧ transmitted v1_speed_query
        = [some 0x01, some 0x04, some 0x03, some 0x01, none, none]
    ∧ determined v1_speed_query = false
    ∧ determined (Huanyang.mode_cmd modbus_v1 state rpm) = true
    ∧ (∀ m, Huanyang.rpm_cmd modbus_v1 s rpm = some m → determined m = true)
    ∧ (∀ m, (Huanyang.spindleGetState modbus_v2 tol s encoder result).2.1
          = [Event.modbus_send m false result] → determined m = true) := by
  refine ⟨rfl, rfl, by decide, rfl, rfl, rfl, rfl, rfl, rfl, ?_, ?_⟩
  · intro m hm
    unfold Huanyang.rpm_cmd at hm
    rw [if_neg (by decide)] at hm
    split at hm
    · exact absurd hm (by simp)
    · simp only [Option.some.injEq] at hm
      rw [← hm]
      rfl
  · intro m hm
    have h2 : (Huanyang.spindleGetState modbus_v2 tol s encoder result).2.1
        = [Event.modbus_send
            { context := VFD_GetRPM
              crc_check := false
              adu := [some VFD_ADDRESS, some ModBus_ReadHoldingRegisters, some 0x70, some 0x0C,
                      some 0x00, some 0x02]
              tx_length := 8
              rx_length := 8 } false result] := rfl
    rw [h2] at hm
    simp only [List.cons.injEq, Event.modbus_send.injEq, and_true] at hm
    rw [← hm]
    rfl

end VFD
